import Mathlib

/-!
Verification of the AI assessment content pipeline (ai-assessment-v2).

Shallow embedding of the repository's core: the schema layer
(`Backend/models/schemas.py`, `Backend/models/artifacts.py`), the generic
stage-agent retry contract (`Backend/agents/base.py`), the reviewer's
threshold reconciliation (`Backend/agents/reviewer.py`), the orchestrator
state machine (`Backend/agents/orchestrator.py`), the configuration
constants (`config.py`) and the artifact repository
(`Backend/storage/repository.py`).

LLM calls are modelled as oracle functions supplied to the orchestrator
(one possible outcome per call site); Python exceptions are modelled with
`Except`; wall-clock datetimes are modelled as integer points on the time
line; constrained Python ints are modelled as `Nat` with the pydantic
`Field` bounds expressed as decidable validity predicates that the JSON
decoder re-checks, exactly as pydantic re-validates on construction.
-/

namespace AIAssessment

/-- JSON documents, as produced by `model_dump_json` and stored by TinyDB.
Datetimes are serialized by the repository via `isoformat`; since the exact
ISO string rendering is irrelevant here, a datetime is carried as its
(injective) integer timeline value through the `int` constructor. -/
inductive Json where
  | null : Json
  | bool : Bool → Json
  | int : Int → Json
  | str : String → Json
  | arr : List Json → Json
  | obj : List (String × Json) → Json
deriving Repr

/-! ## config.py -/

/-- config.py: MAX_GENERATION_RETRIES = 1. -/
def MAX_GENERATION_RETRIES : Nat := 1

/-- config.py: MAX_REFINEMENT_ATTEMPTS = 2 (maximum refinement passes). -/
def MAX_REFINEMENT_ATTEMPTS : Nat := 2

/-- config.py: PASS_THRESHOLDS, in dict insertion order. -/
def PASS_THRESHOLDS : List (String × Nat) :=
  [("age_appropriateness", 4), ("correctness", 5), ("clarity", 4), ("coverage", 3)]

/-- config.py: MIN_AVERAGE_SCORE = 4.0. -/
def MIN_AVERAGE_SCORE : ℚ := 4

/-! ## Backend/models/schemas.py -/

/-- schemas.GeneratorInput: grade 1..12, topic 3..200 chars (bounds checked
by pydantic, expressed in `GeneratorInput.Valid`). -/
structure GeneratorInput where
  grade : Nat
  topic : String
deriving Repr, DecidableEq

/-- pydantic Field bounds of `GeneratorInput`. -/
def GeneratorInput.Valid (x : GeneratorInput) : Prop :=
  1 ≤ x.grade ∧ x.grade ≤ 12 ∧ 3 ≤ x.topic.length ∧ x.topic.length ≤ 200

instance : DecidablePred GeneratorInput.Valid := fun x => by
  unfold GeneratorInput.Valid; infer_instance

/-- schemas.Explanation. -/
structure Explanation where
  text : String
  grade : Nat
deriving Repr, DecidableEq

/-- pydantic Field bounds of `Explanation`: text ≥ 50 chars, grade 1..12. -/
def Explanation.Valid (x : Explanation) : Prop :=
  50 ≤ x.text.length ∧ 1 ≤ x.grade ∧ x.grade ≤ 12

instance : DecidablePred Explanation.Valid := fun x => by
  unfold Explanation.Valid; infer_instance

/-- Python `str.strip()`: remove leading and trailing whitespace. -/
def pyStrip (s : String) : String :=
  ⟨((s.data.dropWhile Char.isWhitespace).reverse.dropWhile
      Char.isWhitespace).reverse⟩

/-- schemas.MCQ. -/
structure MCQ where
  question : String
  options : List String
  correct_index : Nat
deriving Repr, DecidableEq

/-- pydantic Field bounds and the `validate_options` validator of `MCQ`:
question ≥ 10 chars, exactly 4 options none of which is empty after
stripping whitespace, correct_index 0..3. -/
def MCQ.Valid (x : MCQ) : Prop :=
  10 ≤ x.question.length ∧ x.options.length = 4 ∧
    (∀ opt ∈ x.options, (pyStrip opt).length ≠ 0) ∧ x.correct_index ≤ 3

instance : DecidablePred MCQ.Valid := fun x => by
  unfold MCQ.Valid; infer_instance

/-- schemas.TeacherNotes. -/
structure TeacherNotes where
  learning_objective : String
  common_misconceptions : List String
deriving Repr, DecidableEq

/-- pydantic Field bounds of `TeacherNotes`. -/
def TeacherNotes.Valid (x : TeacherNotes) : Prop :=
  20 ≤ x.learning_objective.length ∧ 1 ≤ x.common_misconceptions.length

instance : DecidablePred TeacherNotes.Valid := fun x => by
  unfold TeacherNotes.Valid; infer_instance

/-- schemas.GeneratorOutput. -/
structure GeneratorOutput where
  explanation : Explanation
  mcqs : List MCQ
  teacher_notes : TeacherNotes
deriving Repr, DecidableEq

/-- pydantic bounds of `GeneratorOutput`: 3..5 MCQs, nested models valid. -/
def GeneratorOutput.Valid (x : GeneratorOutput) : Prop :=
  x.explanation.Valid ∧ 3 ≤ x.mcqs.length ∧ x.mcqs.length ≤ 5 ∧
    (∀ q ∈ x.mcqs, q.Valid) ∧ x.teacher_notes.Valid

instance : DecidablePred GeneratorOutput.Valid := fun x => by
  unfold GeneratorOutput.Valid; infer_instance

/-- schemas.ReviewScore: four rubric scores, each 1..5. -/
structure ReviewScore where
  age_appropriateness : Nat
  correctness : Nat
  clarity : Nat
  coverage : Nat
deriving Repr, DecidableEq

/-- pydantic Field bounds of `ReviewScore`. -/
def ReviewScore.Valid (s : ReviewScore) : Prop :=
  1 ≤ s.age_appropriateness ∧ s.age_appropriateness ≤ 5 ∧
  1 ≤ s.correctness ∧ s.correctness ≤ 5 ∧
  1 ≤ s.clarity ∧ s.clarity ≤ 5 ∧
  1 ≤ s.coverage ∧ s.coverage ≤ 5

instance : DecidablePred ReviewScore.Valid := fun s => by
  unfold ReviewScore.Valid; infer_instance

/-- schemas.ReviewFeedback.severity: Literal["critical", "major", "minor"]. -/
inductive Severity where
  | critical
  | major
  | minor
deriving Repr, DecidableEq

/-- schemas.ReviewFeedback. -/
structure ReviewFeedback where
  field : String
  issue : String
  severity : Severity
  suggestion : Option String
deriving Repr, DecidableEq

/-- schemas.ReviewerOutput. The Python field `pass_decision` carries the
JSON alias "pass" (populate_by_name = True). -/
structure ReviewerOutput where
  scores : ReviewScore
  pass_decision : Bool
  feedback : List ReviewFeedback
  summary : String
deriving Repr, DecidableEq

/-- pydantic bounds of `ReviewerOutput` (only the scores are constrained). -/
def ReviewerOutput.Valid (r : ReviewerOutput) : Prop := r.scores.Valid

instance : DecidablePred ReviewerOutput.Valid := fun r => by
  unfold ReviewerOutput.Valid; infer_instance

/-- schemas.RefinerInput. -/
structure RefinerInput where
  original_input : GeneratorInput
  current_content : GeneratorOutput
  feedback : List ReviewFeedback
  attempt_number : Nat
deriving Repr, DecidableEq

/-- schemas.DifficultyLevel. -/
inductive DifficultyLevel where
  | EASY
  | MEDIUM
  | HARD
deriving Repr, DecidableEq

/-- schemas.BloomsLevel. -/
inductive BloomsLevel where
  | REMEMBERING
  | UNDERSTANDING
  | APPLYING
  | ANALYZING
  | EVALUATING
  | CREATING
deriving Repr, DecidableEq

/-- schemas.ContentType. -/
inductive ContentType where
  | EXPLANATION
  | QUIZ
  | EXERCISE
  | EXAMPLE
deriving Repr, DecidableEq

/-- schemas.TaggerOutput. -/
structure TaggerOutput where
  subject : String
  topic : String
  grade : Nat
  difficulty : DifficultyLevel
  content_type : List ContentType
  blooms_level : BloomsLevel
  keywords : List String
deriving Repr, DecidableEq

/-- pydantic bounds of `TaggerOutput`: grade 1..12, at least one content
type. -/
def TaggerOutput.Valid (t : TaggerOutput) : Prop :=
  1 ≤ t.grade ∧ t.grade ≤ 12 ∧ 1 ≤ t.content_type.length

instance : DecidablePred TaggerOutput.Valid := fun t => by
  unfold TaggerOutput.Valid; infer_instance

/-- Decidability of a validity condition on the payload of an `Option`. -/
instance {α : Type} (o : Option α) (p : α → Prop) [DecidablePred p] :
    Decidable (∀ d, o = some d → p d) :=
  match o with
  | none => isTrue (by simp)
  | some d => decidable_of_iff (p d) (by simp)

/-! ## Backend/models/artifacts.py -/

/-- artifacts.AttemptRecord. The `timestamp` default_factory datetime is an
integer timeline value here. -/
structure AttemptRecord where
  attempt : Nat
  draft : GeneratorOutput
  review : ReviewerOutput
  refined : Option GeneratorOutput
  timestamp : Int
deriving Repr, DecidableEq

/-- pydantic bounds of `AttemptRecord`: attempt ≥ 1, nested models valid. -/
def AttemptRecord.Valid (a : AttemptRecord) : Prop :=
  1 ≤ a.attempt ∧ a.draft.Valid ∧ a.review.Valid ∧
    (∀ d, a.refined = some d → d.Valid)

instance : DecidablePred AttemptRecord.Valid := fun a => by
  unfold AttemptRecord.Valid; infer_instance

/-- artifacts.FinalResult.status: Literal["approved", "rejected"]. -/
inductive RunStatus where
  | approved
  | rejected
deriving Repr, DecidableEq

/-- artifacts.FinalResult. -/
structure FinalResult where
  status : RunStatus
  content : Option GeneratorOutput
  tags : Option TaggerOutput
  rejection_reason : Option String
deriving Repr, DecidableEq

/-- pydantic bounds of `FinalResult`: nested models valid when present. -/
def FinalResult.Valid (f : FinalResult) : Prop :=
  (∀ c, f.content = some c → c.Valid) ∧ (∀ t, f.tags = some t → t.Valid)

instance : DecidablePred FinalResult.Valid := fun f => by
  unfold FinalResult.Valid; infer_instance

/-- artifacts.Timestamps. Datetimes are integer timeline values;
`duration_seconds` is their difference. -/
structure Timestamps where
  started_at : Int
  finished_at : Option Int
  duration_seconds : Option Int
deriving Repr, DecidableEq

/-- artifacts.RunArtifact. `metadata` is a free-form JSON dict. -/
structure RunArtifact where
  run_id : String
  user_id : Option String
  input : GeneratorInput
  attempts : List AttemptRecord
  final : Option FinalResult
  timestamps : Timestamps
  metadata : List (String × Json)

/-- pydantic bounds of `RunArtifact`: nested models valid. -/
def RunArtifact.Valid (a : RunArtifact) : Prop :=
  a.input.Valid ∧ (∀ r ∈ a.attempts, r.Valid) ∧
    (∀ f, a.final = some f → f.Valid)

instance : DecidablePred RunArtifact.Valid := fun a => by
  unfold RunArtifact.Valid; infer_instance

/-! ## Backend/agents/base.py -/

/-- base.AgentError: message, owning agent name, recoverable flag. -/
structure AgentError where
  message : String
  agent_name : String
  recoverable : Bool
deriving Repr, DecidableEq

/-- Python `str(e)` of an `AgentError`, set by `super().__init__` as
"[{agent_name}] {message}". -/
def AgentError.str (e : AgentError) : String :=
  "[" ++ e.agent_name ++ "] " ++ e.message

/-- base.BaseAgent.run, from loop index `attempt` on. The per-attempt
outcome of `_call_llm` followed by `_parse_and_validate` is modelled by
`oracle : Nat → Except AgentError α` (those two helpers only ever raise
`AgentError`, with `recoverable = true`; an unrecoverable error is still
handled as the code does). The second component counts attempts actually
made, i.e. oracle invocations. -/
def BaseAgent.runFrom {α : Type} (name : String)
    (oracle : Nat → Except AgentError α) (max_retries : Nat)
    (attempt : Nat) : Except AgentError α × Nat :=
  match oracle attempt with
  | .ok v => (.ok v, attempt + 1)
  | .error e =>
    if h : !e.recoverable || max_retries ≤ attempt then
      (.error ⟨"Failed after " ++ toString (max_retries + 1) ++
          " attempts. Last error: " ++ e.message, name, false⟩,
        attempt + 1)
    else
      BaseAgent.runFrom name oracle max_retries (attempt + 1)
termination_by max_retries - attempt
decreasing_by
  simp only [Bool.or_eq_true, Bool.not_eq_true, decide_eq_true_eq, not_or] at h
  omega

/-- base.BaseAgent.run: the retry loop `for attempt in range(max_retries + 1)`
starting at attempt 0. -/
def BaseAgent.run {α : Type} (name : String)
    (oracle : Nat → Except AgentError α) (max_retries : Nat) :
    Except AgentError α × Nat :=
  BaseAgent.runFrom name oracle max_retries 0

/-! ## Backend/agents/reviewer.py -/

/-- Python `getattr(scores, criterion)` for the four rubric criteria. -/
def criterionScore (s : ReviewScore) (c : String) : Nat :=
  if c = "age_appropriateness" then s.age_appropriateness
  else if c = "correctness" then s.correctness
  else if c = "clarity" then s.clarity
  else if c = "coverage" then s.coverage
  else 0

/-- Sum of the four rubric scores. -/
def scoreSum (s : ReviewScore) : Nat :=
  s.age_appropriateness + s.correctness + s.clarity + s.coverage

/-- reviewer `avg_score = (age + correctness + clarity + coverage) / 4`,
exact in Python floats for 1..5 integer scores, hence modelled in ℚ. -/
def avgScore (s : ReviewScore) : ℚ := (scoreSum s : ℚ) / 4

/-- Python `f"{avg_score:.1f}"` for a quarter-integer average (the float is
an exact binary quarter, so the format rounds half to even: .25 → .2 and
.75 → .8), rendered from the 4·avg integer sum. -/
def fmtAvg1 (sum : Nat) : String :=
  toString (sum / 4) ++
    (match sum % 4 with
     | 0 => ".0"
     | 1 => ".2"
     | 2 => ".5"
     | _ => ".8")

/-- Reasons accumulated by the per-criterion threshold loop in
`ReviewerAgent._validate_pass_decision`, in dict order. -/
def thresholdReasons (s : ReviewScore) : List String :=
  (PASS_THRESHOLDS.filter fun ct => decide (criterionScore s ct.1 < ct.2)).map
    fun ct =>
      ct.1 ++ " (" ++ toString (criterionScore s ct.1) ++
        ") below threshold (" ++ toString ct.2 ++ ")"

/-- All reasons accumulated by `_validate_pass_decision`, the average check
last. `str(4.0)` renders the configured minimum as "4.0". -/
def violationReasons (s : ReviewScore) : List String :=
  thresholdReasons s ++
    (if avgScore s < MIN_AVERAGE_SCORE then
      ["Average score (" ++ fmtAvg1 (scoreSum s) ++ ") below minimum (4.0)"]
    else [])

/-- The `should_pass` flag computed by `_validate_pass_decision`: true iff
no per-criterion threshold is violated and the average is not below the
minimum. -/
def shouldPass (s : ReviewScore) : Bool :=
  (PASS_THRESHOLDS.filter fun ct => decide (criterionScore s ct.1 < ct.2)).isEmpty
    && !(decide (avgScore s < MIN_AVERAGE_SCORE))

/-- reviewer.ReviewerAgent._validate_pass_decision: override the
model-reported pass flag with the recomputed one and annotate the summary
when they disagree; otherwise return the result unchanged. -/
def ReviewerAgent.validate_pass_decision (result : ReviewerOutput) : ReviewerOutput :=
  if result.pass_decision == shouldPass result.scores then result
  else
    { scores := result.scores
      pass_decision := shouldPass result.scores
      feedback := result.feedback
      summary := result.summary ++ " [Auto-corrected: " ++
        String.intercalate "; " (violationReasons result.scores) ++ "]" }

/-! ## Backend/agents/orchestrator.py -/

/-- Orchestrator._summarize_feedback: prefer the first up-to-3
critical-severity feedback items, else the first up-to-3 items of any
severity, each rendered "field: issue" and joined with "; "; with no
review or no feedback, report that none is available. -/
def Orchestrator.summarize_feedback : Option ReviewerOutput → String
  | none => "No specific feedback available"
  | some review =>
    if review.feedback.isEmpty then "No specific feedback available"
    else
      let critical := review.feedback.filter fun f => f.severity == Severity.critical
      if !critical.isEmpty then
        String.intercalate "; "
          ((critical.take 3).map fun f => f.field ++ ": " ++ f.issue)
      else
        String.intercalate "; "
          ((review.feedback.take 3).map fun f => f.field ++ ": " ++ f.issue)

/-- The two exception classes the orchestrator distinguishes: `AgentError`
and any other Python exception (carrying its `str`). -/
inductive PipelineError where
  | agent (e : AgentError)
  | unexpected (message : String)
deriving Repr, DecidableEq

/-- The rejection reason produced by the orchestrator's two `except`
blocks: "Pipeline error: {str(e)}" for an `AgentError`, "Unexpected
error: {str(e)}" otherwise. -/
def PipelineError.reason : PipelineError → String
  | .agent e => "Pipeline error: " ++ e.str
  | .unexpected m => "Unexpected error: " ++ m

/-- The rejected `FinalResult` built by the orchestrator's `except`
handlers. -/
def FinalResult.ofError (e : PipelineError) : FinalResult :=
  { status := .rejected, content := none, tags := none,
    rejection_reason := some e.reason }

/-- pydantic validation run on `RefinerInput(...)` construction: the
schema hard-codes `attempt_number: ge=1, le=2`. A violation raises a
`ValidationError`, which is not an `AgentError`. -/
def RefinerInput.validate (original_input : GeneratorInput)
    (current_content : GeneratorOutput) (feedback : List ReviewFeedback)
    (attempt_number : Nat) : Except PipelineError RefinerInput :=
  if 1 ≤ attempt_number ∧ attempt_number ≤ 2 then
    .ok ⟨original_input, current_content, feedback, attempt_number⟩
  else
    .error (.unexpected
      ("1 validation error for RefinerInput: attempt_number=" ++
        toString attempt_number ++ " not in range 1..2"))

/-- One possible behaviour of the LLM-backed collaborators, one outcome per
call site: each call either returns a schema-valid output (the stage
agent's internal retries already absorbed) or raises. `review` is indexed
by the attempt number because each loop iteration is a fresh call.
`attemptTime` gives the `datetime.utcnow()` default timestamp of the
`AttemptRecord` created on each iteration. -/
structure Oracles where
  generate : GeneratorInput → Except PipelineError GeneratorOutput
  review : Nat → GeneratorOutput → Except PipelineError ReviewerOutput
  refine : RefinerInput → Except PipelineError GeneratorOutput
  tag : GeneratorInput → GeneratorOutput → Except PipelineError TaggerOutput
  attemptTime : Nat → Int

/-- Orchestrator._review: the reviewer agent call followed by its
threshold reconciliation (`ReviewerAgent.review` applies
`_validate_pass_decision` to the validated LLM output). -/
def Orchestrator.reviewStep (o : Oracles) (n : Nat) (content : GeneratorOutput) :
    Except PipelineError ReviewerOutput :=
  match o.review n content with
  | .error e => .error e
  | .ok r => .ok (ReviewerAgent.validate_pass_decision r)

/-- Orchestrator._refine: construct the `RefinerInput` (pydantic
validation included) and call the refiner agent. -/
def Orchestrator.refineStep (o : Oracles) (input : GeneratorInput)
    (content : GeneratorOutput) (review : ReviewerOutput) (attempt : Nat) :
    Except PipelineError GeneratorOutput :=
  match RefinerInput.validate input content review.feedback attempt with
  | .error e => .error e
  | .ok ri => o.refine ri

/-- Outcome of the orchestrator's review loop: either the loop exits
normally (with the appended attempt records, the final draft when a review
passed, and the last review), or an exception escapes the loop carrying
the records appended so far. -/
inductive LoopOutcome where
  | done (attempts : List AttemptRecord) (finalContent : Option GeneratorOutput)
      (finalReview : Option ReviewerOutput)
  | failed (attempts : List AttemptRecord) (e : PipelineError)
deriving Repr

/-- The attempt records held by the artifact when the loop ends. -/
def LoopOutcome.attempts : LoopOutcome → List AttemptRecord
  | .done a _ _ => a
  | .failed a _ => a

/-- Orchestrator.run, step 2: the
`while attempt_number <= self.max_refinements + 1` review loop, from state
(`attempt_number`, `current_content`, records appended so far). On a
failing review with budget left, the refinement happens before the record
(holding the refined draft) is appended, so a refiner exception leaves
that iteration's record unappended — exactly as in the source. -/
def Orchestrator.reviewLoop (o : Oracles) (maxR : Nat) (input : GeneratorInput)
    (attempt_number : Nat) (current : GeneratorOutput)
    (acc : List AttemptRecord) : LoopOutcome :=
  if h : attempt_number ≤ maxR + 1 then
    match Orchestrator.reviewStep o attempt_number current with
    | .error e => .failed acc e
    | .ok review =>
      let attempt : AttemptRecord :=
        { attempt := attempt_number, draft := current, review := review,
          refined := none, timestamp := o.attemptTime attempt_number }
      if review.pass_decision then
        .done (acc ++ [attempt]) (some current) (some review)
      else if maxR < attempt_number then
        .done (acc ++ [attempt]) none (some review)
      else
        match Orchestrator.refineStep o input current review attempt_number with
        | .error e => .failed acc e
        | .ok refined_content =>
          Orchestrator.reviewLoop o maxR input (attempt_number + 1)
            refined_content (acc ++ [{ attempt with refined := some refined_content }])
  else
    .done acc none none
termination_by maxR + 2 - attempt_number
decreasing_by omega

/-- Result of one orchestrator run: the returned artifact, plus the list
of drafts the tagging collaborator was invoked on (instrumentation for the
"tagger receives zero invocations on rejected runs" property; the Python
method returns only the artifact). -/
structure RunOutcome where
  artifact : RunArtifact
  taggerCalls : List GeneratorOutput

/-- Orchestrator.run. `maxR` is `self.max_refinements`
(`MAX_REFINEMENT_ATTEMPTS` = 2 under the shipped configuration); `run_id`
is the uuid4 default; `started_at`/`finished_at` are the two
`datetime.utcnow()` reads. The `try/except/finally` of the source becomes
a total function: `Except` errors from any stage are converted by
`FinalResult.ofError`, and the `finally` block's timestamp finalization is
unconditional. -/
def Orchestrator.run (o : Oracles) (maxR : Nat) (run_id : String)
    (user_id : Option String) (input : GeneratorInput)
    (started_at finished_at : Int) : RunOutcome :=
  let pipeline : List AttemptRecord × FinalResult × List GeneratorOutput :=
    match o.generate input with
    | .error e => ([], FinalResult.ofError e, [])
    | .ok first_draft =>
      match Orchestrator.reviewLoop o maxR input 1 first_draft [] with
      | .failed attempts e => (attempts, FinalResult.ofError e, [])
      | .done attempts finalContent finalReview =>
        match finalContent with
        | some content =>
          match o.tag input content with
          | .error e => (attempts, FinalResult.ofError e, [content])
          | .ok tags =>
            (attempts,
              { status := .approved, content := some content,
                tags := some tags, rejection_reason := none },
              [content])
        | none =>
          (attempts,
            { status := .rejected, content := none, tags := none,
              rejection_reason := some ("Failed review after " ++
                toString attempts.length ++ " attempts. Final issues: " ++
                Orchestrator.summarize_feedback finalReview) },
            [])
  { artifact :=
      { run_id := run_id, user_id := user_id, input := input,
        attempts := pipeline.1, final := some pipeline.2.1,
        timestamps :=
          { started_at := started_at, finished_at := some finished_at,
            duration_seconds := some (finished_at - started_at) },
        metadata := [] }
    taggerCalls := pipeline.2.2 }

/-! ## Serialization (`model_dump_json`) and deserialization
(`RunArtifact(**dict)` with pydantic re-validation), as used by
`Backend/storage/repository.py`. Dumping uses field names (pydantic v2
default, `by_alias = False`), so `pass_decision` is dumped under its name;
re-validation accepts both the name and the alias "pass"
(`populate_by_name = True`). Unknown keys are ignored on validation
(pydantic default), which the key-lookup decoders reflect. -/

/-- Key lookup in a JSON object, first occurrence wins. -/
def jlookup : List (String × Json) → String → Option Json
  | [], _ => none
  | (k, v) :: rest, key => if k = key then some v else jlookup rest key

/-- pydantic validation of a bounded integer field (ge/le). -/
def Json.asNat (lo hi : Nat) : Json → Option Nat
  | .int n => if lo ≤ n ∧ n ≤ (hi : Int) then some n.toNat else none
  | _ => none

/-- pydantic validation of a string field with min_length and max_length. -/
def Json.asStrBetween (lo hi : Nat) : Json → Option String
  | .str s => if lo ≤ s.length ∧ s.length ≤ hi then some s else none
  | _ => none

/-- pydantic validation of a string field with min_length only. -/
def Json.asStrMin (lo : Nat) : Json → Option String
  | .str s => if lo ≤ s.length then some s else none
  | _ => none

/-- An unconstrained string field. -/
def Json.asStr : Json → Option String
  | .str s => some s
  | _ => none

/-- An unconstrained datetime field (integer timeline value). -/
def Json.asTime : Json → Option Int
  | .int n => some n
  | _ => none

/-- An optional field: JSON null decodes to `none`. -/
def Json.asOpt (dec : Json → Option α) : Json → Option (Option α)
  | .null => some none
  | j => (dec j).map some

/-- Element-wise decoding of a JSON array payload. -/
def decodeList (dec : Json → Option α) : List Json → Option (List α)
  | [] => some []
  | j :: rest =>
    match dec j with
    | none => none
    | some x => (decodeList dec rest).map (x :: ·)

/-- Encoding of an optional submodel: `None` dumps to JSON null. -/
def optJson (enc : α → Json) : Option α → Json
  | none => .null
  | some x => enc x

/-- Dump of `GeneratorInput`. -/
def GeneratorInput.toJson (x : GeneratorInput) : Json :=
  .obj [("grade", .int x.grade), ("topic", .str x.topic)]

/-- Validation of a `GeneratorInput` dict. -/
def GeneratorInput.fromJson : Json → Option GeneratorInput
  | .obj fields => do
    let g ← (jlookup fields "grade").bind (Json.asNat 1 12)
    let t ← (jlookup fields "topic").bind (Json.asStrBetween 3 200)
    pure ⟨g, t⟩
  | _ => none

/-- Dump of `Explanation`. -/
def Explanation.toJson (x : Explanation) : Json :=
  .obj [("text", .str x.text), ("grade", .int x.grade)]

/-- Validation of an `Explanation` dict. -/
def Explanation.fromJson : Json → Option Explanation
  | .obj fields => do
    let t ← (jlookup fields "text").bind (Json.asStrMin 50)
    let g ← (jlookup fields "grade").bind (Json.asNat 1 12)
    pure ⟨t, g⟩
  | _ => none

/-- Dump of `MCQ`. -/
def MCQ.toJson (x : MCQ) : Json :=
  .obj [("question", .str x.question),
        ("options", .arr (x.options.map .str)),
        ("correct_index", .int x.correct_index)]

/-- Validation of the `options` field of an `MCQ` dict: exactly 4 strings,
none empty after stripping (the `validate_options` field validator). -/
def decodeOptions : Json → Option (List String)
  | .arr xs => do
    let opts ← decodeList Json.asStr xs
    if opts.length = 4 ∧ ∀ opt ∈ opts, (pyStrip opt).length ≠ 0 then pure opts
    else none
  | _ => none

/-- Validation of an `MCQ` dict. -/
def MCQ.fromJson : Json → Option MCQ
  | .obj fields => do
    let q ← (jlookup fields "question").bind (Json.asStrMin 10)
    let opts ← (jlookup fields "options").bind decodeOptions
    let ci ← (jlookup fields "correct_index").bind (Json.asNat 0 3)
    pure ⟨q, opts, ci⟩
  | _ => none

/-- Dump of `TeacherNotes`. -/
def TeacherNotes.toJson (x : TeacherNotes) : Json :=
  .obj [("learning_objective", .str x.learning_objective),
        ("common_misconceptions", .arr (x.common_misconceptions.map .str))]

/-- Validation of a `TeacherNotes` dict. -/
def TeacherNotes.fromJson : Json → Option TeacherNotes
  | .obj fields => do
    let lo ← (jlookup fields "learning_objective").bind (Json.asStrMin 20)
    let cm ← match jlookup fields "common_misconceptions" with
      | some (.arr xs) => decodeList Json.asStr xs
      | _ => none
    if 1 ≤ cm.length then pure ⟨lo, cm⟩ else none
  | _ => none

/-- Dump of `GeneratorOutput`. -/
def GeneratorOutput.toJson (x : GeneratorOutput) : Json :=
  .obj [("explanation", x.explanation.toJson),
        ("mcqs", .arr (x.mcqs.map MCQ.toJson)),
        ("teacher_notes", x.teacher_notes.toJson)]

/-- Validation of a `GeneratorOutput` dict. -/
def GeneratorOutput.fromJson : Json → Option GeneratorOutput
  | .obj fields => do
    let e ← (jlookup fields "explanation").bind Explanation.fromJson
    let qs ← match jlookup fields "mcqs" with
      | some (.arr xs) => decodeList MCQ.fromJson xs
      | _ => none
    let tn ← (jlookup fields "teacher_notes").bind TeacherNotes.fromJson
    if 3 ≤ qs.length ∧ qs.length ≤ 5 then pure ⟨e, qs, tn⟩ else none
  | _ => none

/-- Dump of `ReviewScore`. -/
def ReviewScore.toJson (x : ReviewScore) : Json :=
  .obj [("age_appropriateness", .int x.age_appropriateness),
        ("correctness", .int x.correctness),
        ("clarity", .int x.clarity),
        ("coverage", .int x.coverage)]

/-- Validation of a `ReviewScore` dict. -/
def ReviewScore.fromJson : Json → Option ReviewScore
  | .obj fields => do
    let a ← (jlookup fields "age_appropriateness").bind (Json.asNat 1 5)
    let b ← (jlookup fields "correctness").bind (Json.asNat 1 5)
    let c ← (jlookup fields "clarity").bind (Json.asNat 1 5)
    let d ← (jlookup fields "coverage").bind (Json.asNat 1 5)
    pure ⟨a, b, c, d⟩
  | _ => none

/-- Dump of a `Severity` literal. -/
def Severity.toJson : Severity → Json
  | .critical => .str "critical"
  | .major => .str "major"
  | .minor => .str "minor"

/-- Validation of a `Severity` literal. -/
def Severity.fromJson : Json → Option Severity
  | .str "critical" => some .critical
  | .str "major" => some .major
  | .str "minor" => some .minor
  | _ => none

/-- Dump of `ReviewFeedback`. -/
def ReviewFeedback.toJson (x : ReviewFeedback) : Json :=
  .obj [("field", .str x.field), ("issue", .str x.issue),
        ("severity", x.severity.toJson),
        ("suggestion", optJson .str x.suggestion)]

/-- Validation of a `ReviewFeedback` dict. -/
def ReviewFeedback.fromJson : Json → Option ReviewFeedback
  | .obj fields => do
    let fd ← (jlookup fields "field").bind Json.asStr
    let is ← (jlookup fields "issue").bind Json.asStr
    let sv ← (jlookup fields "severity").bind Severity.fromJson
    let sg ← (jlookup fields "suggestion").bind (Json.asOpt Json.asStr)
    pure ⟨fd, is, sv, sg⟩
  | _ => none

/-- Dump of `ReviewerOutput` (field names, so "pass_decision"). -/
def ReviewerOutput.toJson (x : ReviewerOutput) : Json :=
  .obj [("scores", x.scores.toJson),
        ("pass_decision", .bool x.pass_decision),
        ("feedback", .arr (x.feedback.map ReviewFeedback.toJson)),
        ("summary", .str x.summary)]

/-- Validation of a `ReviewerOutput` dict: the pass flag is read from the
field name or from its alias "pass". -/
def ReviewerOutput.fromJson : Json → Option ReviewerOutput
  | .obj fields => do
    let sc ← (jlookup fields "scores").bind ReviewScore.fromJson
    let p ← match jlookup fields "pass_decision", jlookup fields "pass" with
      | some (.bool b), _ => some b
      | none, some (.bool b) => some b
      | _, _ => none
    let fb ← match jlookup fields "feedback" with
      | some (.arr xs) => decodeList ReviewFeedback.fromJson xs
      | _ => none
    let sm ← (jlookup fields "summary").bind Json.asStr
    pure ⟨sc, p, fb, sm⟩
  | _ => none

/-- Dump of a `DifficultyLevel` enum value. -/
def DifficultyLevel.toJson : DifficultyLevel → Json
  | .EASY => .str "Easy"
  | .MEDIUM => .str "Medium"
  | .HARD => .str "Hard"

/-- Validation of a `DifficultyLevel` enum value. -/
def DifficultyLevel.fromJson : Json → Option DifficultyLevel
  | .str "Easy" => some .EASY
  | .str "Medium" => some .MEDIUM
  | .str "Hard" => some .HARD
  | _ => none

/-- Dump of a `BloomsLevel` enum value. -/
def BloomsLevel.toJson : BloomsLevel → Json
  | .REMEMBERING => .str "Remembering"
  | .UNDERSTANDING => .str "Understanding"
  | .APPLYING => .str "Applying"
  | .ANALYZING => .str "Analyzing"
  | .EVALUATING => .str "Evaluating"
  | .CREATING => .str "Creating"

/-- Validation of a `BloomsLevel` enum value. -/
def BloomsLevel.fromJson : Json → Option BloomsLevel
  | .str "Remembering" => some .REMEMBERING
  | .str "Understanding" => some .UNDERSTANDING
  | .str "Applying" => some .APPLYING
  | .str "Analyzing" => some .ANALYZING
  | .str "Evaluating" => some .EVALUATING
  | .str "Creating" => some .CREATING
  | _ => none

/-- Dump of a `ContentType` enum value. -/
def ContentType.toJson : ContentType → Json
  | .EXPLANATION => .str "Explanation"
  | .QUIZ => .str "Quiz"
  | .EXERCISE => .str "Exercise"
  | .EXAMPLE => .str "Example"

/-- Validation of a `ContentType` enum value. -/
def ContentType.fromJson : Json → Option ContentType
  | .str "Explanation" => some .EXPLANATION
  | .str "Quiz" => some .QUIZ
  | .str "Exercise" => some .EXERCISE
  | .str "Example" => some .EXAMPLE
  | _ => none

/-- Dump of `TaggerOutput`. -/
def TaggerOutput.toJson (x : TaggerOutput) : Json :=
  .obj [("subject", .str x.subject), ("topic", .str x.topic),
        ("grade", .int x.grade), ("difficulty", x.difficulty.toJson),
        ("content_type", .arr (x.content_type.map ContentType.toJson)),
        ("blooms_level", x.blooms_level.toJson),
        ("keywords", .arr (x.keywords.map .str))]

/-- Validation of a `TaggerOutput` dict. -/
def TaggerOutput.fromJson : Json → Option TaggerOutput
  | .obj fields => do
    let sj ← (jlookup fields "subject").bind Json.asStr
    let tp ← (jlookup fields "topic").bind Json.asStr
    let g ← (jlookup fields "grade").bind (Json.asNat 1 12)
    let df ← (jlookup fields "difficulty").bind DifficultyLevel.fromJson
    let ct ← match jlookup fields "content_type" with
      | some (.arr xs) => decodeList ContentType.fromJson xs
      | _ => none
    let bl ← (jlookup fields "blooms_level").bind BloomsLevel.fromJson
    let kw ← match jlookup fields "keywords" with
      | some (.arr xs) => decodeList Json.asStr xs
      | _ => none
    if 1 ≤ ct.length then pure ⟨sj, tp, g, df, ct, bl, kw⟩ else none
  | _ => none

/-- Dump of `AttemptRecord`. -/
def AttemptRecord.toJson (x : AttemptRecord) : Json :=
  .obj [("attempt", .int x.attempt), ("draft", x.draft.toJson),
        ("review", x.review.toJson),
        ("refined", optJson GeneratorOutput.toJson x.refined),
        ("timestamp", .int x.timestamp)]

/-- Validation of an `AttemptRecord` dict. -/
def AttemptRecord.fromJson : Json → Option AttemptRecord
  | .obj fields => do
    let n ← match jlookup fields "attempt" with
      | some (.int k) => if 1 ≤ k then some k.toNat else none
      | _ => none
    let d ← (jlookup fields "draft").bind GeneratorOutput.fromJson
    let r ← (jlookup fields "review").bind ReviewerOutput.fromJson
    let rf ← (jlookup fields "refined").bind (Json.asOpt GeneratorOutput.fromJson)
    let ts ← (jlookup fields "timestamp").bind Json.asTime
    pure ⟨n, d, r, rf, ts⟩
  | _ => none

/-- Dump of a `FinalResult.status` literal. -/
def RunStatus.toJson : RunStatus → Json
  | .approved => .str "approved"
  | .rejected => .str "rejected"

/-- Validation of a `FinalResult.status` literal. -/
def RunStatus.fromJson : Json → Option RunStatus
  | .str "approved" => some .approved
  | .str "rejected" => some .rejected
  | _ => none

/-- Dump of `FinalResult`. -/
def FinalResult.toJson (x : FinalResult) : Json :=
  .obj [("status", x.status.toJson),
        ("content", optJson GeneratorOutput.toJson x.content),
        ("tags", optJson TaggerOutput.toJson x.tags),
        ("rejection_reason", optJson .str x.rejection_reason)]

/-- Validation of a `FinalResult` dict. -/
def FinalResult.fromJson : Json → Option FinalResult
  | .obj fields => do
    let st ← (jlookup fields "status").bind RunStatus.fromJson
    let c ← (jlookup fields "content").bind (Json.asOpt GeneratorOutput.fromJson)
    let tg ← (jlookup fields "tags").bind (Json.asOpt TaggerOutput.fromJson)
    let rr ← (jlookup fields "rejection_reason").bind (Json.asOpt Json.asStr)
    pure ⟨st, c, tg, rr⟩
  | _ => none

/-- Dump of `Timestamps`. -/
def Timestamps.toJson (x : Timestamps) : Json :=
  .obj [("started_at", .int x.started_at),
        ("finished_at", optJson .int x.finished_at),
        ("duration_seconds", optJson .int x.duration_seconds)]

/-- Validation of a `Timestamps` dict. -/
def Timestamps.fromJson : Json → Option Timestamps
  | .obj fields => do
    let sa ← (jlookup fields "started_at").bind Json.asTime
    let fa ← (jlookup fields "finished_at").bind (Json.asOpt Json.asTime)
    let du ← (jlookup fields "duration_seconds").bind (Json.asOpt Json.asTime)
    pure ⟨sa, fa, du⟩
  | _ => none

/-- Dump of `RunArtifact` (`json.loads(artifact.model_dump_json())`). -/
def RunArtifact.toJson (x : RunArtifact) : Json :=
  .obj [("run_id", .str x.run_id),
        ("user_id", optJson .str x.user_id),
        ("input", x.input.toJson),
        ("attempts", .arr (x.attempts.map AttemptRecord.toJson)),
        ("final", optJson FinalResult.toJson x.final),
        ("timestamps", x.timestamps.toJson),
        ("metadata", .obj x.metadata)]

/-- Validation of a `RunArtifact` dict (`RunArtifact(**doc)`). -/
def RunArtifact.fromJson : Json → Option RunArtifact
  | .obj fields => do
    let rid ← (jlookup fields "run_id").bind Json.asStr
    let uid ← (jlookup fields "user_id").bind (Json.asOpt Json.asStr)
    let inp ← (jlookup fields "input").bind GeneratorInput.fromJson
    let atts ← match jlookup fields "attempts" with
      | some (.arr xs) => decodeList AttemptRecord.fromJson xs
      | _ => none
    let fin ← (jlookup fields "final").bind (Json.asOpt FinalResult.fromJson)
    let ts ← (jlookup fields "timestamps").bind Timestamps.fromJson
    let md ← match jlookup fields "metadata" with
      | some (.obj m) => some m
      | _ => none
    pure ⟨rid, uid, inp, atts, fin, ts, md⟩
  | _ => none

/-! ## Backend/storage/repository.py -/

/-- The TinyDB document filter `Artifact.run_id == rid`. -/
def matchesRunId (rid : String) (doc : Json) : Bool :=
  match doc with
  | .obj fields =>
    match jlookup fields "run_id" with
    | some (.str s) => s == rid
    | _ => false
  | _ => false

/-- repository.ArtifactRepository.save: dump the artifact, then update the
documents matching its run_id if any exist, else insert. TinyDB's update
merges keys into the stored dict; every stored document carries the full
`RunArtifact` key set, so the merge replaces the document. -/
def ArtifactRepository.save (table : List Json) (artifact : RunArtifact) :
    List Json :=
  let data := artifact.toJson
  if (table.filter (matchesRunId artifact.run_id)).isEmpty then
    table ++ [data]
  else
    table.map fun d => if matchesRunId artifact.run_id d then data else d

/-- repository.ArtifactRepository.get: search by run_id, return the first
result re-validated as a `RunArtifact` (a failed re-validation, which in
Python would raise, is `none`). -/
def ArtifactRepository.get (table : List Json) (run_id : String) :
    Option RunArtifact :=
  match (table.filter (matchesRunId run_id)).head? with
  | none => none
  | some doc => RunArtifact.fromJson doc

/-! ## Round-trip lemmas for the serialization layer -/

lemma Json.asNat_int (lo hi k : Nat) (h1 : lo ≤ k) (h2 : k ≤ hi) :
    Json.asNat lo hi (.int k) = some k := by
  simp only [Json.asNat]
  rw [if_pos]
  · simp
  · constructor <;> [exact_mod_cast h1; exact_mod_cast h2]

lemma Json.asStrBetween_str (lo hi : Nat) (s : String)
    (h1 : lo ≤ s.length) (h2 : s.length ≤ hi) :
    Json.asStrBetween lo hi (.str s) = some s := by
  simp [Json.asStrBetween, h1, h2]

lemma Json.asStrMin_str (lo : Nat) (s : String) (h : lo ≤ s.length) :
    Json.asStrMin lo (.str s) = some s := by
  simp [Json.asStrMin, h]

lemma decodeList_map_eq {α : Type} (dec : Json → Option α) (enc : α → Json)
    (l : List α) (h : ∀ x ∈ l, dec (enc x) = some x) :
    decodeList dec (l.map enc) = some l := by
  induction l with
  | nil => rfl
  | cons a t ih =>
    have ha : dec (enc a) = some a := h a (by simp)
    have ht : decodeList dec (t.map enc) = some t :=
      ih fun x hx => h x (by simp [hx])
    simp [decodeList, ha, ht]

lemma decodeList_str (l : List String) :
    decodeList Json.asStr (l.map .str) = some l :=
  decodeList_map_eq _ _ _ fun _x _hx => rfl

lemma generatorInput_fromJson_toJson (x : GeneratorInput) (h : x.Valid) :
    GeneratorInput.fromJson x.toJson = some x := by
  obtain ⟨h1, h2, h3, h4⟩ := h
  rcases x with ⟨g, t⟩
  simp [GeneratorInput.toJson, GeneratorInput.fromJson, jlookup,
    Json.asNat_int 1 12 g h1 h2, Json.asStrBetween_str 3 200 t h3 h4]

lemma explanation_fromJson_toJson (x : Explanation) (h : x.Valid) :
    Explanation.fromJson x.toJson = some x := by
  obtain ⟨h1, h2, h3⟩ := h
  rcases x with ⟨t, g⟩
  simp [Explanation.toJson, Explanation.fromJson, jlookup,
    Json.asNat_int 1 12 g h2 h3, Json.asStrMin_str 50 t h1]

lemma Json.asOpt_ne_null {α : Type} (dec : Json → Option α) (j : Json)
    (h : j ≠ .null) : Json.asOpt dec j = (dec j).map some := by
  cases j <;> simp_all [Json.asOpt]

lemma Json.asOpt_null {α : Type} (dec : Json → Option α) :
    Json.asOpt dec .null = some none := rfl

lemma mCQ_fromJson_toJson (x : MCQ) (h : x.Valid) :
    MCQ.fromJson x.toJson = some x := by
  rcases x with ⟨q, opts, ci⟩
  obtain ⟨h1, h2, h3, h4⟩ := h
  have h3b : ∀ opt ∈ opts, ¬(pyStrip opt).length = 0 := h3
  simp [MCQ.toJson, MCQ.fromJson, jlookup, decodeOptions,
    Json.asStrMin_str 10 q h1, decodeList_str,
    Json.asNat_int 0 3 ci (Nat.zero_le ci) h4, h2, h3b]
  rw [if_pos h3b]
  rfl

lemma teacherNotes_fromJson_toJson (x : TeacherNotes) (h : x.Valid) :
    TeacherNotes.fromJson x.toJson = some x := by
  obtain ⟨h1, h2⟩ := h
  rcases x with ⟨lo, cm⟩
  simp [TeacherNotes.toJson, TeacherNotes.fromJson, jlookup,
    Json.asStrMin_str 20 lo h1, decodeList_str, h2]

lemma generatorOutput_fromJson_toJson (x : GeneratorOutput) (h : x.Valid) :
    GeneratorOutput.fromJson x.toJson = some x := by
  obtain ⟨he, h3, h5, hqs, htn⟩ := h
  rcases x with ⟨e, qs, tn⟩
  have hq : decodeList MCQ.fromJson (qs.map MCQ.toJson) = some qs :=
    decodeList_map_eq _ _ _ fun q hq => mCQ_fromJson_toJson q (hqs q hq)
  simp [GeneratorOutput.toJson, GeneratorOutput.fromJson, jlookup,
    explanation_fromJson_toJson e he, hq,
    teacherNotes_fromJson_toJson tn htn, h3, h5]

lemma reviewScore_fromJson_toJson (s : ReviewScore) (h : s.Valid) :
    ReviewScore.fromJson s.toJson = some s := by
  obtain ⟨h1, h2, h3, h4, h5, h6, h7, h8⟩ := h
  rcases s with ⟨a, b, c, d⟩
  simp [ReviewScore.toJson, ReviewScore.fromJson, jlookup,
    Json.asNat_int 1 5 a h1 h2, Json.asNat_int 1 5 b h3 h4,
    Json.asNat_int 1 5 c h5 h6, Json.asNat_int 1 5 d h7 h8]

lemma severity_fromJson_toJson (s : Severity) :
    Severity.fromJson s.toJson = some s := by
  cases s <;> rfl

lemma reviewFeedback_fromJson_toJson (f : ReviewFeedback) :
    ReviewFeedback.fromJson f.toJson = some f := by
  rcases f with ⟨fd, is, sv, sg⟩
  rcases sg with _ | s <;>
    simp [ReviewFeedback.toJson, ReviewFeedback.fromJson, jlookup,
      severity_fromJson_toJson, optJson, Json.asOpt, Json.asStr]

lemma reviewerOutput_fromJson_toJson (r : ReviewerOutput) (h : r.Valid) :
    ReviewerOutput.fromJson r.toJson = some r := by
  rcases r with ⟨sc, p, fb, sm⟩
  have hfb : decodeList ReviewFeedback.fromJson (fb.map ReviewFeedback.toJson)
      = some fb :=
    decodeList_map_eq _ _ _ fun f _hf => reviewFeedback_fromJson_toJson f
  simp [ReviewerOutput.toJson, ReviewerOutput.fromJson, jlookup,
    reviewScore_fromJson_toJson sc h, hfb, Json.asStr]

lemma difficultyLevel_fromJson_toJson (d : DifficultyLevel) :
    DifficultyLevel.fromJson d.toJson = some d := by
  cases d <;> rfl

lemma bloomsLevel_fromJson_toJson (b : BloomsLevel) :
    BloomsLevel.fromJson b.toJson = some b := by
  cases b <;> rfl

lemma contentType_fromJson_toJson (c : ContentType) :
    ContentType.fromJson c.toJson = some c := by
  cases c <;> rfl

lemma taggerOutput_fromJson_toJson (t : TaggerOutput) (h : t.Valid) :
    TaggerOutput.fromJson t.toJson = some t := by
  obtain ⟨h1, h2, h3⟩ := h
  rcases t with ⟨sj, tp, g, df, ct, bl, kw⟩
  have hct : decodeList ContentType.fromJson (ct.map ContentType.toJson)
      = some ct :=
    decodeList_map_eq _ _ _ fun c _hc => contentType_fromJson_toJson c
  simp [TaggerOutput.toJson, TaggerOutput.fromJson, jlookup,
    Json.asNat_int 1 12 g h1 h2, difficultyLevel_fromJson_toJson,
    bloomsLevel_fromJson_toJson, hct, decodeList_str, Json.asStr, h3]

lemma attemptRecord_fromJson_toJson (a : AttemptRecord) (h : a.Valid) :
    AttemptRecord.fromJson a.toJson = some a := by
  rcases a with ⟨n, d, r, rf, ts⟩
  obtain ⟨h1, h2, h3, h4⟩ := h
  have hn : (1 : Int) ≤ (n : Int) := by exact_mod_cast h1
  have hrf : Json.asOpt GeneratorOutput.fromJson (optJson GeneratorOutput.toJson rf)
      = some rf := by
    rcases rf with _ | rd
    · rfl
    · have hv : rd.Valid := h4 rd rfl
      simp only [optJson]
      rw [Json.asOpt_ne_null _ _ (by simp [GeneratorOutput.toJson]),
        generatorOutput_fromJson_toJson rd hv]
      rfl
  simp [AttemptRecord.toJson, AttemptRecord.fromJson, jlookup, hn,
    generatorOutput_fromJson_toJson d h2, reviewerOutput_fromJson_toJson r h3,
    hrf, Json.asTime]

lemma runStatus_fromJson_toJson (s : RunStatus) :
    RunStatus.fromJson s.toJson = some s := by
  cases s <;> rfl

lemma finalResult_fromJson_toJson (f : FinalResult) (h : f.Valid) :
    FinalResult.fromJson f.toJson = some f := by
  rcases f with ⟨st, c, tg, rr⟩
  obtain ⟨hc, ht⟩ := h
  have hcj : Json.asOpt GeneratorOutput.fromJson (optJson GeneratorOutput.toJson c)
      = some c := by
    rcases c with _ | cd
    · rfl
    · have hv : cd.Valid := hc cd rfl
      simp only [optJson]
      rw [Json.asOpt_ne_null _ _ (by simp [GeneratorOutput.toJson]),
        generatorOutput_fromJson_toJson cd hv]
      rfl
  have htj : Json.asOpt TaggerOutput.fromJson (optJson TaggerOutput.toJson tg)
      = some tg := by
    rcases tg with _ | td
    · rfl
    · have hv : td.Valid := ht td rfl
      simp only [optJson]
      rw [Json.asOpt_ne_null _ _ (by simp [TaggerOutput.toJson]),
        taggerOutput_fromJson_toJson td hv]
      rfl
  have hrj : Json.asOpt Json.asStr (optJson .str rr) = some rr := by
    rcases rr with _ | rs <;> rfl
  simp [FinalResult.toJson, FinalResult.fromJson, jlookup,
    runStatus_fromJson_toJson, hcj, htj, hrj]

lemma timestamps_fromJson_toJson (t : Timestamps) :
    Timestamps.fromJson t.toJson = some t := by
  rcases t with ⟨sa, fa, du⟩
  rcases fa with _ | f <;> rcases du with _ | d <;>
    simp [Timestamps.toJson, Timestamps.fromJson, jlookup, optJson,
      Json.asOpt, Json.asTime]

lemma runArtifact_fromJson_toJson (a : RunArtifact) (h : a.Valid) :
    RunArtifact.fromJson a.toJson = some a := by
  rcases a with ⟨rid, uid, inp, atts, fin, ts, md⟩
  obtain ⟨hi, hatts, hfin⟩ := h
  have hat : decodeList AttemptRecord.fromJson (atts.map AttemptRecord.toJson)
      = some atts :=
    decodeList_map_eq _ _ _ fun r hr => attemptRecord_fromJson_toJson r (hatts r hr)
  have huid : Json.asOpt Json.asStr (optJson .str uid) = some uid := by
    rcases uid with _ | u <;> rfl
  have hfj : Json.asOpt FinalResult.fromJson (optJson FinalResult.toJson fin)
      = some fin := by
    rcases fin with _ | f
    · rfl
    · have hv : f.Valid := hfin f rfl
      simp only [optJson]
      rw [Json.asOpt_ne_null _ _ (by simp [FinalResult.toJson]),
        finalResult_fromJson_toJson f hv]
      rfl
  simp [RunArtifact.toJson, RunArtifact.fromJson, jlookup, Json.asStr,
    generatorInput_fromJson_toJson inp hi, hat, huid, hfj,
    timestamps_fromJson_toJson]

lemma matchesRunId_toJson (a : RunArtifact) :
    matchesRunId a.run_id a.toJson = true := by
  simp [matchesRunId, RunArtifact.toJson, jlookup]

lemma filter_map_replace_head (p : Json → Bool) (data : Json)
    (hp : p data = true) :
    ∀ t : List Json, t.filter p ≠ [] →
      ((t.map fun d => if p d then data else d).filter p).head? = some data := by
  intro t
  induction t with
  | nil => simp
  | cons d rest ih =>
    intro hne
    by_cases hd : p d
    · simp [hd, hp]
    · have hne2 : rest.filter p ≠ [] := by
        intro hnil
        apply hne
        simp [List.filter_cons, hd, hnil]
      have step : ((d :: rest).map fun x => if p x then data else x).filter p
          = ((rest.map fun x => if p x then data else x).filter p) := by
        simp [List.filter_cons, hd]
      rw [step]
      exact ih hne2

lemma ArtifactRepository.get_save (table : List Json) (a : RunArtifact)
    (h : a.Valid) :
    ArtifactRepository.get (ArtifactRepository.save table a) a.run_id = some a := by
  simp only [ArtifactRepository.save, ArtifactRepository.get]
  rcases hq : table.filter (matchesRunId a.run_id) with _ | ⟨d0, rest⟩
  · simp [hq, List.filter_append, matchesRunId_toJson a,
      runArtifact_fromJson_toJson a h]
  · have hne : table.filter (matchesRunId a.run_id) ≠ [] := by
      rw [hq]; simp
    simp [hq, filter_map_replace_head _ _ (matchesRunId_toJson a) table hne,
      runArtifact_fromJson_toJson a h]

/-! ## Sample data (concrete witnesses) -/

/-- The spec's concrete scenario request: grade 5, "Fractions as parts of
a whole". -/
def sampleInput : GeneratorInput := ⟨5, "Fractions as parts of a whole"⟩

/-- A schema-valid draft artifact. -/
def sampleMCQ : MCQ :=
  ⟨"What fraction of a pizza is one of four equal slices?",
    ["one half", "one third", "one quarter", "one fifth"], 2⟩

/-- A schema-valid generated draft. -/
def sampleDraft : GeneratorOutput :=
  ⟨⟨"A fraction names equal parts of a whole object or set, such as halves, thirds and quarters.", 5⟩,
    [sampleMCQ, sampleMCQ, sampleMCQ],
    ⟨"Understand fractions as equal parts of a whole.",
      ["A bigger denominator always means a bigger fraction"]⟩⟩

/-- A review whose scores meet every threshold, reported as passing (the
reconciliation leaves it unchanged). -/
def passReview : ReviewerOutput :=
  ⟨⟨5, 5, 5, 5⟩, true, [], "Meets all thresholds"⟩

/-- A review failing the age_appropriateness and clarity thresholds,
reported as failing (the reconciliation leaves it unchanged). -/
def failReview : ReviewerOutput :=
  ⟨⟨3, 5, 3, 4⟩, false,
    [⟨"explanation.text", "Vocabulary too advanced for grade 5", .critical,
      some "Use simpler words"⟩],
    "Too hard for the target grade"⟩

/-- A schema-valid tag result. -/
def sampleTags : TaggerOutput :=
  ⟨"Mathematics", "Fractions", 5, .EASY, [.EXPLANATION], .UNDERSTANDING,
    ["fractions", "parts of a whole"]⟩

/-- A schema-valid finalized run artifact: one failed attempt, one passing
attempt, approved final result. -/
def sampleArtifact : RunArtifact :=
  { run_id := "run-0001", user_id := some "user-1", input := sampleInput,
    attempts := [⟨1, sampleDraft, failReview, some sampleDraft, 3⟩,
                 ⟨2, sampleDraft, passReview, none, 4⟩],
    final := some ⟨.approved, some sampleDraft, some sampleTags, none⟩,
    timestamps := ⟨0, some 5, some 5⟩, metadata := [] }

lemma sampleArtifact_valid : sampleArtifact.Valid := by decide

/-! ## Unfolding lemmas for the review loop -/

lemma reviewLoop_step_pass (o : Oracles) (maxR : Nat) (input : GeneratorInput)
    (n : Nat) (current : GeneratorOutput) (acc : List AttemptRecord)
    (review : ReviewerOutput) (hn : n ≤ maxR + 1)
    (hr : Orchestrator.reviewStep o n current = .ok review)
    (hp : review.pass_decision = true) :
    Orchestrator.reviewLoop o maxR input n current acc =
      .done (acc ++ [⟨n, current, review, none, o.attemptTime n⟩])
        (some current) (some review) := by
  rw [Orchestrator.reviewLoop]
  rw [dif_pos hn]
  simp [hr, hp]

lemma reviewLoop_step_exhaust (o : Oracles) (maxR : Nat) (input : GeneratorInput)
    (n : Nat) (current : GeneratorOutput) (acc : List AttemptRecord)
    (review : ReviewerOutput) (hn : n ≤ maxR + 1) (hm : maxR < n)
    (hr : Orchestrator.reviewStep o n current = .ok review)
    (hp : review.pass_decision = false) :
    Orchestrator.reviewLoop o maxR input n current acc =
      .done (acc ++ [⟨n, current, review, none, o.attemptTime n⟩])
        none (some review) := by
  rw [Orchestrator.reviewLoop]
  rw [dif_pos hn]
  simp [hr, hp, hm]

lemma reviewLoop_step_refine (o : Oracles) (maxR : Nat) (input : GeneratorInput)
    (n : Nat) (current : GeneratorOutput) (acc : List AttemptRecord)
    (review : ReviewerOutput) (rc : GeneratorOutput) (hn : n ≤ maxR)
    (hr : Orchestrator.reviewStep o n current = .ok review)
    (hp : review.pass_decision = false)
    (hrf : Orchestrator.refineStep o input current review n = .ok rc) :
    Orchestrator.reviewLoop o maxR input n current acc =
      Orchestrator.reviewLoop o maxR input (n + 1) rc
        (acc ++ [⟨n, current, review, some rc, o.attemptTime n⟩]) := by
  rw [Orchestrator.reviewLoop]
  rw [dif_pos (by omega)]
  simp [hr, hp, hrf, Nat.not_lt.mpr hn]

lemma reviewLoop_step_reviewError (o : Oracles) (maxR : Nat)
    (input : GeneratorInput) (n : Nat) (current : GeneratorOutput)
    (acc : List AttemptRecord) (e : PipelineError) (hn : n ≤ maxR + 1)
    (hr : Orchestrator.reviewStep o n current = .error e) :
    Orchestrator.reviewLoop o maxR input n current acc = .failed acc e := by
  rw [Orchestrator.reviewLoop]
  rw [dif_pos hn]
  simp [hr]

lemma reviewLoop_step_refineError (o : Oracles) (maxR : Nat)
    (input : GeneratorInput) (n : Nat) (current : GeneratorOutput)
    (acc : List AttemptRecord) (review : ReviewerOutput) (e : PipelineError)
    (hn : n ≤ maxR)
    (hr : Orchestrator.reviewStep o n current = .ok review)
    (hp : review.pass_decision = false)
    (hrf : Orchestrator.refineStep o input current review n = .error e) :
    Orchestrator.reviewLoop o maxR input n current acc = .failed acc e := by
  rw [Orchestrator.reviewLoop]
  rw [dif_pos (by omega)]
  simp [hr, hp, hrf, Nat.not_lt.mpr hn]

/-! ## Unfolding lemmas for `Orchestrator.run` -/

lemma run_gen_error (o : Oracles) (maxR : Nat) (rid : String)
    (uid : Option String) (input : GeneratorInput) (st ft : Int)
    (e : PipelineError) (hg : o.generate input = .error e) :
    Orchestrator.run o maxR rid uid input st ft =
      ⟨{ run_id := rid, user_id := uid, input := input, attempts := [],
         final := some (FinalResult.ofError e),
         timestamps := ⟨st, some ft, some (ft - st)⟩, metadata := [] },
       []⟩ := by
  simp only [Orchestrator.run, hg]

lemma run_loop_failed (o : Oracles) (maxR : Nat) (rid : String)
    (uid : Option String) (input : GeneratorInput) (st ft : Int)
    (d0 : GeneratorOutput) (atts : List AttemptRecord) (e : PipelineError)
    (hg : o.generate input = .ok d0)
    (hl : Orchestrator.reviewLoop o maxR input 1 d0 [] = .failed atts e) :
    Orchestrator.run o maxR rid uid input st ft =
      ⟨{ run_id := rid, user_id := uid, input := input, attempts := atts,
         final := some (FinalResult.ofError e),
         timestamps := ⟨st, some ft, some (ft - st)⟩, metadata := [] },
       []⟩ := by
  simp only [Orchestrator.run, hg, hl]

lemma run_loop_rejected (o : Oracles) (maxR : Nat) (rid : String)
    (uid : Option String) (input : GeneratorInput) (st ft : Int)
    (d0 : GeneratorOutput) (atts : List AttemptRecord)
    (fr : Option ReviewerOutput) (hg : o.generate input = .ok d0)
    (hl : Orchestrator.reviewLoop o maxR input 1 d0 [] = .done atts none fr) :
    Orchestrator.run o maxR rid uid input st ft =
      ⟨{ run_id := rid, user_id := uid, input := input, attempts := atts,
         final := some
           { status := .rejected, content := none, tags := none,
             rejection_reason := some ("Failed review after " ++
               toString atts.length ++ " attempts. Final issues: " ++
               Orchestrator.summarize_feedback fr) },
         timestamps := ⟨st, some ft, some (ft - st)⟩, metadata := [] },
       []⟩ := by
  simp only [Orchestrator.run, hg, hl]

lemma run_loop_approved (o : Oracles) (maxR : Nat) (rid : String)
    (uid : Option String) (input : GeneratorInput) (st ft : Int)
    (d0 : GeneratorOutput) (atts : List AttemptRecord) (c : GeneratorOutput)
    (fr : Option ReviewerOutput) (tags : TaggerOutput)
    (hg : o.generate input = .ok d0)
    (hl : Orchestrator.reviewLoop o maxR input 1 d0 [] = .done atts (some c) fr)
    (ht : o.tag input c = .ok tags) :
    Orchestrator.run o maxR rid uid input st ft =
      ⟨{ run_id := rid, user_id := uid, input := input, attempts := atts,
         final := some
           { status := .approved, content := some c, tags := some tags,
             rejection_reason := none },
         timestamps := ⟨st, some ft, some (ft - st)⟩, metadata := [] },
       [c]⟩ := by
  simp only [Orchestrator.run, hg, hl, ht]

lemma run_loop_tagError (o : Oracles) (maxR : Nat) (rid : String)
    (uid : Option String) (input : GeneratorInput) (st ft : Int)
    (d0 : GeneratorOutput) (atts : List AttemptRecord) (c : GeneratorOutput)
    (fr : Option ReviewerOutput) (e : PipelineError)
    (hg : o.generate input = .ok d0)
    (hl : Orchestrator.reviewLoop o maxR input 1 d0 [] = .done atts (some c) fr)
    (ht : o.tag input c = .error e) :
    Orchestrator.run o maxR rid uid input st ft =
      ⟨{ run_id := rid, user_id := uid, input := input, attempts := atts,
         final := some (FinalResult.ofError e),
         timestamps := ⟨st, some ft, some (ft - st)⟩, metadata := [] },
       [c]⟩ := by
  simp only [Orchestrator.run, hg, hl, ht]

/-- C9: saving a finalized Run Artifact and retrieving it by its run_id
yields an equal aggregate — same run_id, same final.status, same number of
attempt records (serialize-then-deserialize is the identity on these
fields), for any prior repository contents. -/
theorem C9_save_get_round_trip (table : List Json) (a : RunArtifact)
    (h : a.Valid) :
    ∃ b, ArtifactRepository.get (ArtifactRepository.save table a) a.run_id
        = some b ∧
      b.run_id = a.run_id ∧
      b.final.map FinalResult.status = a.final.map FinalResult.status ∧
      b.attempts.length = a.attempts.length :=
  ⟨a, ArtifactRepository.get_save table a h, rfl, rfl, rfl⟩

/-- Witness for C9 at a concrete valid artifact and the empty store. -/
theorem C9_save_get_round_trip_witness :
    ∃ b, ArtifactRepository.get (ArtifactRepository.save [] sampleArtifact)
        sampleArtifact.run_id = some b ∧
      b.run_id = sampleArtifact.run_id ∧
      b.final.map FinalResult.status
        = sampleArtifact.final.map FinalResult.status ∧
      b.attempts.length = sampleArtifact.attempts.length :=
  C9_save_get_round_trip [] sampleArtifact (by decide)

/-- A trivially successful collaborator behaviour: generation, review,
refinement and tagging all succeed, and the first review passes. -/
def sampleOracles : Oracles :=
  { generate := fun _ => .ok sampleDraft
    review := fun _ _ => .ok passReview
    refine := fun _ => .ok sampleDraft
    tag := fun _ _ => .ok sampleTags
    attemptTime := fun _ => 0 }

/-- A collaborator behaviour whose reviews always fail (with a valid,
consistently-reported review) and whose refinements always succeed. -/
def failOracles : Oracles :=
  { generate := fun _ => .ok sampleDraft
    review := fun _ _ => .ok failReview
    refine := fun _ => .ok sampleDraft
    tag := fun _ _ => .ok sampleTags
    attemptTime := fun _ => 0 }

lemma str_append_ne_empty (s t : String) (h : 0 < s.length) : s ++ t ≠ "" := by
  intro he
  have h2 := congrArg String.length he
  rw [String.length_append] at h2
  have h0 : ("" : String).length = 0 := rfl
  omega

lemma PipelineError.reason_ne_empty (e : PipelineError) : e.reason ≠ "" := by
  cases e <;> exact str_append_ne_empty _ _ (by decide)

/-- C6: on every run — every oracle behaviour, including error paths — the
returned artifact's timestamps are finalized: finished_at is set,
duration_seconds equals finished_at - started_at, and when the finish
clock reading is no earlier than the start it is non-negative. -/
theorem C6_timestamps_finalized (o : Oracles) (maxR : Nat) (rid : String)
    (uid : Option String) (input : GeneratorInput) (st ft : Int) :
    (Orchestrator.run o maxR rid uid input st ft).artifact.timestamps.finished_at
        = some ft ∧
    (Orchestrator.run o maxR rid uid input st ft).artifact.timestamps.duration_seconds
        = some (ft - st) ∧
    (st ≤ ft → ∃ d,
      (Orchestrator.run o maxR rid uid input st ft).artifact.timestamps.duration_seconds
          = some d ∧ 0 ≤ d) :=
  ⟨rfl, rfl, fun hle => ⟨ft - st, rfl, by omega⟩⟩

/-- Witness for C6 at a concrete behaviour and clock readings 0 and 5. -/
theorem C6_timestamps_finalized_witness :
    (Orchestrator.run sampleOracles 2 "run-w6" none sampleInput 0 5).artifact.timestamps.finished_at
        = some 5 ∧
    (Orchestrator.run sampleOracles 2 "run-w6" none sampleInput 0 5).artifact.timestamps.duration_seconds
        = some 5 ∧
    ∃ d,
      (Orchestrator.run sampleOracles 2 "run-w6" none sampleInput 0 5).artifact.timestamps.duration_seconds
          = some d ∧ 0 ≤ d := by
  obtain ⟨h1, h2, h3⟩ :=
    C6_timestamps_finalized sampleOracles 2 "run-w6" none sampleInput 0 5
  exact ⟨h1, h2, h3 (by decide)⟩

/-- C5: the orchestrator never raises: for every oracle behaviour the
returned artifact carries a final result that is either approved with
content and tags, or rejected with a non-empty rejection reason; and every
stage error — generation, review/refinement loop, tagging — is converted
into `FinalResult.ofError`, whose reason embeds the error message behind
the "Pipeline error: "/"Unexpected error: " prefixes. -/
theorem C5_never_raises (o : Oracles) (maxR : Nat) (rid : String)
    (uid : Option String) (input : GeneratorInput) (st ft : Int) :
    (∃ f, (Orchestrator.run o maxR rid uid input st ft).artifact.final = some f ∧
      ((f.status = .approved ∧ f.content.isSome ∧ f.tags.isSome) ∨
       (f.status = .rejected ∧ ∃ r, f.rejection_reason = some r ∧ r ≠ ""))) ∧
    (∀ e, o.generate input = .error e →
      (Orchestrator.run o maxR rid uid input st ft).artifact.final
        = some (FinalResult.ofError e)) ∧
    (∀ d0 atts e, o.generate input = .ok d0 →
      Orchestrator.reviewLoop o maxR input 1 d0 [] = .failed atts e →
      (Orchestrator.run o maxR rid uid input st ft).artifact.final
        = some (FinalResult.ofError e)) ∧
    (∀ d0 atts c fr e, o.generate input = .ok d0 →
      Orchestrator.reviewLoop o maxR input 1 d0 [] = .done atts (some c) fr →
      o.tag input c = .error e →
      (Orchestrator.run o maxR rid uid input st ft).artifact.final
        = some (FinalResult.ofError e)) ∧
    (∀ ae, (PipelineError.agent ae).reason
        = "Pipeline error: " ++ ("[" ++ ae.agent_name ++ "] " ++ ae.message)) ∧
    (∀ m, (PipelineError.unexpected m).reason = "Unexpected error: " ++ m) := by
  refine ⟨?_, ?_, ?_, ?_, fun ae => rfl, fun m => rfl⟩
  · rcases hg : o.generate input with e | d0
    · rw [run_gen_error o maxR rid uid input st ft e hg]
      exact ⟨FinalResult.ofError e, rfl,
        .inr ⟨rfl, e.reason, rfl, e.reason_ne_empty⟩⟩
    · rcases hl : Orchestrator.reviewLoop o maxR input 1 d0 [] with
        ⟨atts, fc, fr⟩ | ⟨atts, e⟩
      · rcases fc with _ | c
        · rw [run_loop_rejected o maxR rid uid input st ft d0 atts fr hg hl]
          refine ⟨_, rfl, .inr ⟨rfl, _, rfl, ?_⟩⟩
          apply str_append_ne_empty
          rw [String.length_append, String.length_append]
          have h20 : ("Failed review after " : String).length = 20 := rfl
          omega
        · rcases ht : o.tag input c with e | tags
          · rw [run_loop_tagError o maxR rid uid input st ft d0 atts c fr e hg hl ht]
            exact ⟨FinalResult.ofError e, rfl,
              .inr ⟨rfl, e.reason, rfl, e.reason_ne_empty⟩⟩
          · rw [run_loop_approved o maxR rid uid input st ft d0 atts c fr tags hg hl ht]
            exact ⟨_, rfl, .inl ⟨rfl, rfl, rfl⟩⟩
      · rw [run_loop_failed o maxR rid uid input st ft d0 atts e hg hl]
        exact ⟨FinalResult.ofError e, rfl,
          .inr ⟨rfl, e.reason, rfl, e.reason_ne_empty⟩⟩
  · intro e hg
    rw [run_gen_error o maxR rid uid input st ft e hg]
  · intro d0 atts e hg hl
    rw [run_loop_failed o maxR rid uid input st ft d0 atts e hg hl]
  · intro d0 atts c fr e hg hl ht
    rw [run_loop_tagError o maxR rid uid input st ft d0 atts c fr e hg hl ht]

/-- A behaviour whose generation fails terminally. -/
def genFailOracles : Oracles :=
  { sampleOracles with
    generate := fun _ =>
      .error (.agent ⟨"Failed after 2 attempts. Last error: boom",
        "GeneratorAgent", false⟩) }

/-- Witness for C5: a failed generation is converted into the
corresponding rejected final result. -/
theorem C5_never_raises_witness :
    (Orchestrator.run genFailOracles 2 "run-w5" none sampleInput 0 1).artifact.final
      = some (FinalResult.ofError
          (.agent ⟨"Failed after 2 attempts. Last error: boom",
            "GeneratorAgent", false⟩)) :=
  (C5_never_raises genFailOracles 2 "run-w5" none sampleInput 0 1).2.1 _ rfl

lemma avgScore_eq (s : ReviewScore) :
    avgScore s = ((s.age_appropriateness : ℚ) + s.correctness + s.clarity
      + s.coverage) / 4 := by
  unfold avgScore scoreSum
  push_cast
  ring

lemma shouldPass_iff (s : ReviewScore) :
    shouldPass s = true ↔
      ((∀ ct ∈ PASS_THRESHOLDS, ct.2 ≤ criterionScore s ct.1) ∧
        MIN_AVERAGE_SCORE ≤ avgScore s) := by
  unfold shouldPass
  rw [Bool.and_eq_true, List.isEmpty_iff, List.filter_eq_nil_iff]
  simp [not_lt]

lemma validate_pass_eq (r : ReviewerOutput) :
    (ReviewerAgent.validate_pass_decision r).pass_decision
      = shouldPass r.scores := by
  unfold ReviewerAgent.validate_pass_decision
  by_cases hb : r.pass_decision = shouldPass r.scores
  · simp [hb]
  · simp [hb]

/-- C2: for every review result, the stored pass decision equals the
recomputed one — true iff every rubric score meets its configured
per-dimension minimum and the unweighted mean of the four scores meets the
configured minimum average; scores and feedback are never changed; when
the model-reported decision agrees the result is returned untouched, and
when it disagrees the summary is appended with the note listing the
violated criteria. -/
theorem C2_threshold_reconciliation (r : ReviewerOutput) :
    ((ReviewerAgent.validate_pass_decision r).pass_decision = true ↔
      ((∀ ct ∈ PASS_THRESHOLDS, ct.2 ≤ criterionScore r.scores ct.1) ∧
        MIN_AVERAGE_SCORE ≤ ((r.scores.age_appropriateness : ℚ)
          + r.scores.correctness + r.scores.clarity + r.scores.coverage) / 4)) ∧
    (ReviewerAgent.validate_pass_decision r).scores = r.scores ∧
    (ReviewerAgent.validate_pass_decision r).feedback = r.feedback ∧
    (r.pass_decision = shouldPass r.scores →
      ReviewerAgent.validate_pass_decision r = r) ∧
    (r.pass_decision ≠ shouldPass r.scores →
      (ReviewerAgent.validate_pass_decision r).pass_decision
          = shouldPass r.scores ∧
      (ReviewerAgent.validate_pass_decision r).summary
          = r.summary ++ " [Auto-corrected: " ++
            String.intercalate "; " (violationReasons r.scores) ++ "]") := by
  refine ⟨?_, ?_, ?_, fun hb => ?_, fun hb => ⟨validate_pass_eq r, ?_⟩⟩
  · rw [validate_pass_eq r, shouldPass_iff, avgScore_eq]
  · unfold ReviewerAgent.validate_pass_decision
    by_cases hb : r.pass_decision = shouldPass r.scores <;> simp [hb]
  · unfold ReviewerAgent.validate_pass_decision
    by_cases hb : r.pass_decision = shouldPass r.scores <;> simp [hb]
  · unfold ReviewerAgent.validate_pass_decision
    simp [hb]
  · unfold ReviewerAgent.validate_pass_decision
    simp [hb]

/-- Witness for C2: `failReview` reports the recomputed decision already,
so reconciliation returns it untouched. -/
theorem C2_threshold_reconciliation_witness :
    ReviewerAgent.validate_pass_decision failReview = failReview :=
  (C2_threshold_reconciliation failReview).2.2.2.1 (by decide)

/-- The rejection-summary policy as the specification words it: the first
up-to-3 critical-severity items when any exist, else the first up-to-3
feedback items of any severity, each rendered "field: issue" joined with
"; "; with no review or no feedback, the no-feedback message. -/
def summarizeFeedbackSpec (review : Option ReviewerOutput) : String :=
  match review with
  | none => "No specific feedback available"
  | some r =>
    match r.feedback, r.feedback.filter fun f => f.severity == Severity.critical with
    | [], _ => "No specific feedback available"
    | _ :: _, c :: cs =>
      String.intercalate "; "
        (((c :: cs).take 3).map fun f => f.field ++ ": " ++ f.issue)
    | f0 :: fs, [] =>
      String.intercalate "; "
        (((f0 :: fs).take 3).map fun f => f.field ++ ": " ++ f.issue)

/-- C8: the orchestrator's rejection-reason summarization agrees with the
specification's policy on every input: up to 3 critical items first, then
up to 3 items of any severity, then the no-feedback message. -/
theorem C8_summarization_policy (review : Option ReviewerOutput) :
    Orchestrator.summarize_feedback review = summarizeFeedbackSpec review := by
  rcases review with _ | r
  · rfl
  · unfold Orchestrator.summarize_feedback summarizeFeedbackSpec
    rcases hf : r.feedback with _ | ⟨f0, fs⟩
    · simp [hf]
    · rcases hc : (f0 :: fs).filter (fun f => f.severity == Severity.critical)
        with _ | ⟨c, cs⟩ <;> simp [hf, hc]

lemma validate_eq_self (r : ReviewerOutput)
    (h : r.pass_decision = shouldPass r.scores) :
    ReviewerAgent.validate_pass_decision r = r := by
  unfold ReviewerAgent.validate_pass_decision
  simp [h]

lemma shouldPass_passReview : shouldPass passReview.scores = true := by
  rw [shouldPass_iff]
  constructor
  · intro ct hct
    fin_cases hct <;> norm_num [criterionScore, passReview]
  · norm_num [avgScore, scoreSum, passReview, MIN_AVERAGE_SCORE]

lemma shouldPass_failReview : shouldPass failReview.scores = false := by
  rcases hb : shouldPass failReview.scores
  · rfl
  · exfalso
    have h := (shouldPass_iff failReview.scores).mp hb
    have h2 := h.1 ("age_appropriateness", 4) (by simp [PASS_THRESHOLDS])
    norm_num [criterionScore, failReview] at h2

lemma validate_passReview :
    ReviewerAgent.validate_pass_decision passReview = passReview :=
  validate_eq_self passReview (by rw [shouldPass_passReview]; rfl)

lemma validate_failReview :
    ReviewerAgent.validate_pass_decision failReview = failReview :=
  validate_eq_self failReview (by rw [shouldPass_failReview]; rfl)

lemma reviewStep_sampleOracles (n : Nat) (c : GeneratorOutput) :
    Orchestrator.reviewStep sampleOracles n c = .ok passReview := by
  unfold Orchestrator.reviewStep sampleOracles
  simp [validate_passReview]

lemma reviewStep_failOracles (n : Nat) (c : GeneratorOutput) :
    Orchestrator.reviewStep failOracles n c = .ok failReview := by
  unfold Orchestrator.reviewStep failOracles
  simp [validate_failReview]

/-! ## C4: the stage-agent retry contract -/

lemma runFrom_success {α : Type} (name : String)
    (oracle : Nat → Except AgentError α) (max_retries : Nat) :
    ∀ d j k v, k = j + d → k ≤ max_retries →
      (∀ i, j ≤ i → i < k → ∃ e, oracle i = .error e ∧ e.recoverable = true) →
      oracle k = .ok v →
      BaseAgent.runFrom name oracle max_retries j = (.ok v, k + 1) := by
  intro d
  induction d with
  | zero =>
    intro j k v hk hkm herr hok
    have hjk : j = k := by omega
    subst hjk
    rw [BaseAgent.runFrom]
    simp [hok]
  | succ d ih =>
    intro j k v hk hkm herr hok
    obtain ⟨e, he, hrec⟩ := herr j le_rfl (by omega)
    have hnle : ¬ max_retries ≤ j := by omega
    rw [BaseAgent.runFrom]
    simp only [he]
    rw [dif_neg (by simp [hrec, hnle])]
    exact ih (j + 1) k v (by omega) hkm (fun i h1 h2 => herr i (by omega) h2) hok

lemma runFrom_exhaust {α : Type} (name : String)
    (oracle : Nat → Except AgentError α) (max_retries : Nat) :
    ∀ d j, max_retries = j + d →
      (∀ i, j ≤ i → i ≤ max_retries →
        ∃ e, oracle i = .error e ∧ e.recoverable = true) →
      ∀ eL, oracle max_retries = .error eL →
      BaseAgent.runFrom name oracle max_retries j =
        (.error ⟨"Failed after " ++ toString (max_retries + 1) ++
            " attempts. Last error: " ++ eL.message, name, false⟩,
          max_retries + 1) := by
  intro d
  induction d with
  | zero =>
    intro j hkm herr eL hL
    have hj : j = max_retries := by omega
    subst hj
    rw [BaseAgent.runFrom]
    simp only [hL]
    rw [dif_pos (by simp)]
  | succ d ih =>
    intro j hkm herr eL hL
    obtain ⟨e, he, hrec⟩ := herr j le_rfl (by omega)
    have hnle : ¬ max_retries ≤ j := by omega
    rw [BaseAgent.runFrom]
    simp only [he]
    rw [dif_neg (by simp [hrec, hnle])]
    exact ih (j + 1) (by omega) (fun i h1 h2 => herr i (by omega) h2) eL hL

/-- C4: the stage-agent retry contract. First conjunct: when the first `k`
attempts fail recoverably (`k ≤ max_retries`) and attempt `k` succeeds,
the run returns that validated result immediately, after exactly `k + 1`
attempts — no further attempts. Second conjunct: when every attempt in the
budget fails recoverably, the run raises a terminal (non-recoverable)
error whose message embeds the last recoverable error's message and the
total attempt count `max_retries + 1`, after exactly `max_retries + 1`
attempts. -/
theorem C4_retry_contract {α : Type} (name : String)
    (oracle : Nat → Except AgentError α) (max_retries : Nat) :
    (∀ k v, k ≤ max_retries →
      (∀ i, i < k → ∃ e, oracle i = .error e ∧ e.recoverable = true) →
      oracle k = .ok v →
      BaseAgent.run name oracle max_retries = (.ok v, k + 1)) ∧
    ((∀ i, i ≤ max_retries →
        ∃ e, oracle i = .error e ∧ e.recoverable = true) →
      ∀ eL, oracle max_retries = .error eL →
      BaseAgent.run name oracle max_retries =
        (.error ⟨"Failed after " ++ toString (max_retries + 1) ++
            " attempts. Last error: " ++ eL.message, name, false⟩,
          max_retries + 1)) :=
  ⟨fun k v hk herr hok =>
    runFrom_success name oracle max_retries k 0 k v (by omega) hk
      (fun i _ h2 => herr i h2) hok,
   fun herr eL hL =>
    runFrom_exhaust name oracle max_retries max_retries 0 (by omega)
      (fun i _ h2 => herr i h2) eL hL⟩

/-- A per-attempt behaviour whose first call fails recoverably and whose
second call returns a validated value. -/
def c4oracle : Nat → Except AgentError Nat := fun n =>
  if n = 0 then .error ⟨"Invalid JSON response: boom", "GeneratorAgent", true⟩
  else .ok 7

/-- Witness for C4: with one extra retry allowed, the value produced on
the second attempt is returned after exactly 2 attempts. -/
theorem C4_retry_contract_witness :
    BaseAgent.run "GeneratorAgent" c4oracle 1 = (.ok 7, 2) :=
  (C4_retry_contract "GeneratorAgent" c4oracle 1).1 1 7 (by omega)
    (fun i hi => by
      have h0 : i = 0 := by omega
      subst h0
      exact ⟨⟨"Invalid JSON response: boom", "GeneratorAgent", true⟩, rfl, rfl⟩)
    rfl

/-! ## C3 and C10: loop exhaustion and the refiner attempt cap -/

/-- C3: when generation succeeds, every review through the configured
refinement ceiling (2, `MAX_REFINEMENT_ATTEMPTS`) fails, and every
refinement succeeds, the returned artifact holds exactly ceiling + 1
attempt records numbered contiguously from 1, a rejected final result with
null content and tags, and a non-empty rejection reason. -/
theorem C3_exhaustion_artifact (o : Oracles) (rid : String)
    (uid : Option String) (input : GeneratorInput) (st ft : Int)
    (hgen : ∃ d, o.generate input = .ok d)
    (hrev : ∀ n c, ∃ r, o.review n c = .ok r ∧
      (ReviewerAgent.validate_pass_decision r).pass_decision = false)
    (href : ∀ ri, ∃ d, o.refine ri = .ok d) :
    (Orchestrator.run o MAX_REFINEMENT_ATTEMPTS rid uid input st ft).artifact.attempts.length
        = MAX_REFINEMENT_ATTEMPTS + 1 ∧
    (Orchestrator.run o MAX_REFINEMENT_ATTEMPTS rid uid input st ft).artifact.attempts.map
        AttemptRecord.attempt = [1, 2, 3] ∧
    ∃ reason,
      (Orchestrator.run o MAX_REFINEMENT_ATTEMPTS rid uid input st ft).artifact.final
          = some ⟨.rejected, none, none, some reason⟩ ∧
      reason ≠ "" := by
  obtain ⟨d0, hg⟩ := hgen
  obtain ⟨r1, hr1, hp1⟩ := hrev 1 d0
  have hs1 : Orchestrator.reviewStep o 1 d0
      = .ok (ReviewerAgent.validate_pass_decision r1) := by
    unfold Orchestrator.reviewStep
    rw [hr1]
  obtain ⟨d1, hd1⟩ :=
    href ⟨input, d0, (ReviewerAgent.validate_pass_decision r1).feedback, 1⟩
  have hrf1 : Orchestrator.refineStep o input d0
      (ReviewerAgent.validate_pass_decision r1) 1 = .ok d1 := by
    unfold Orchestrator.refineStep RefinerInput.validate
    rw [if_pos (by omega)]
    exact hd1
  obtain ⟨r2, hr2, hp2⟩ := hrev 2 d1
  have hs2 : Orchestrator.reviewStep o 2 d1
      = .ok (ReviewerAgent.validate_pass_decision r2) := by
    unfold Orchestrator.reviewStep
    rw [hr2]
  obtain ⟨d2, hd2⟩ :=
    href ⟨input, d1, (ReviewerAgent.validate_pass_decision r2).feedback, 2⟩
  have hrf2 : Orchestrator.refineStep o input d1
      (ReviewerAgent.validate_pass_decision r2) 2 = .ok d2 := by
    unfold Orchestrator.refineStep RefinerInput.validate
    rw [if_pos (by omega)]
    exact hd2
  obtain ⟨r3, hr3, hp3⟩ := hrev 3 d2
  have hs3 : Orchestrator.reviewStep o 3 d2
      = .ok (ReviewerAgent.validate_pass_decision r3) := by
    unfold Orchestrator.reviewStep
    rw [hr3]
  have hloop : Orchestrator.reviewLoop o MAX_REFINEMENT_ATTEMPTS input 1 d0 []
      = .done
        [⟨1, d0, ReviewerAgent.validate_pass_decision r1, some d1, o.attemptTime 1⟩,
         ⟨2, d1, ReviewerAgent.validate_pass_decision r2, some d2, o.attemptTime 2⟩,
         ⟨3, d2, ReviewerAgent.validate_pass_decision r3, none, o.attemptTime 3⟩]
        none (some (ReviewerAgent.validate_pass_decision r3)) := by
    rw [reviewLoop_step_refine o MAX_REFINEMENT_ATTEMPTS input 1 d0 [] _ d1
        (by decide) hs1 hp1 hrf1]
    rw [reviewLoop_step_refine o MAX_REFINEMENT_ATTEMPTS input 2 d1 _ _ d2
        (by decide) hs2 hp2 hrf2]
    rw [reviewLoop_step_exhaust o MAX_REFINEMENT_ATTEMPTS input 3 d2 _ _
        (by decide) (by decide) hs3 hp3]
    rfl
  rw [run_loop_rejected o MAX_REFINEMENT_ATTEMPTS rid uid input st ft d0 _ _
      hg hloop]
  refine ⟨rfl, rfl, _, rfl, ?_⟩
  apply str_append_ne_empty
  rw [String.length_append, String.length_append]
  have h20 : ("Failed review after " : String).length = 20 := rfl
  omega

/-- Witness for C3 at the always-failing behaviour. -/
theorem C3_exhaustion_artifact_witness :
    (Orchestrator.run failOracles MAX_REFINEMENT_ATTEMPTS "run-w3" none
        sampleInput 0 1).artifact.attempts.length
      = MAX_REFINEMENT_ATTEMPTS + 1 ∧
    (Orchestrator.run failOracles MAX_REFINEMENT_ATTEMPTS "run-w3" none
        sampleInput 0 1).artifact.attempts.map AttemptRecord.attempt
      = [1, 2, 3] ∧
    ∃ reason,
      (Orchestrator.run failOracles MAX_REFINEMENT_ATTEMPTS "run-w3" none
          sampleInput 0 1).artifact.final
        = some ⟨.rejected, none, none, some reason⟩ ∧
      reason ≠ "" :=
  C3_exhaustion_artifact failOracles "run-w3" none sampleInput 0 1
    ⟨sampleDraft, rfl⟩
    (fun n c => ⟨failReview, rfl, by rw [validate_failReview]; rfl⟩)
    (fun ri => ⟨sampleDraft, rfl⟩)

/-- C10: with a configured refinement ceiling greater than 2, the schema's
hard-coded attempt cap (`RefinerInput.attempt_number ≤ 2`) fires at the
third refinement: instead of refining, the run ends rejected by the
orchestrator's generic exception handler, with an "Unexpected error"
reason and only the two attempt records appended before the failure. -/
theorem C10_refiner_attempt_cap (o : Oracles) (maxR : Nat) (rid : String)
    (uid : Option String) (input : GeneratorInput) (st ft : Int)
    (hm : 2 < maxR)
    (hgen : ∃ d, o.generate input = .ok d)
    (hrev : ∀ n c, ∃ r, o.review n c = .ok r ∧
      (ReviewerAgent.validate_pass_decision r).pass_decision = false)
    (href : ∀ ri, ∃ d, o.refine ri = .ok d) :
    ∃ m,
      (Orchestrator.run o maxR rid uid input st ft).artifact.final
          = some ⟨.rejected, none, none, some ("Unexpected error: " ++ m)⟩ ∧
      (Orchestrator.run o maxR rid uid input st ft).artifact.attempts.length
          = 2 := by
  obtain ⟨d0, hg⟩ := hgen
  obtain ⟨r1, hr1, hp1⟩ := hrev 1 d0
  have hs1 : Orchestrator.reviewStep o 1 d0
      = .ok (ReviewerAgent.validate_pass_decision r1) := by
    unfold Orchestrator.reviewStep
    rw [hr1]
  obtain ⟨d1, hd1⟩ :=
    href ⟨input, d0, (ReviewerAgent.validate_pass_decision r1).feedback, 1⟩
  have hrf1 : Orchestrator.refineStep o input d0
      (ReviewerAgent.validate_pass_decision r1) 1 = .ok d1 := by
    unfold Orchestrator.refineStep RefinerInput.validate
    rw [if_pos (by omega)]
    exact hd1
  obtain ⟨r2, hr2, hp2⟩ := hrev 2 d1
  have hs2 : Orchestrator.reviewStep o 2 d1
      = .ok (ReviewerAgent.validate_pass_decision r2) := by
    unfold Orchestrator.reviewStep
    rw [hr2]
  obtain ⟨d2, hd2⟩ :=
    href ⟨input, d1, (ReviewerAgent.validate_pass_decision r2).feedback, 2⟩
  have hrf2 : Orchestrator.refineStep o input d1
      (ReviewerAgent.validate_pass_decision r2) 2 = .ok d2 := by
    unfold Orchestrator.refineStep RefinerInput.validate
    rw [if_pos (by omega)]
    exact hd2
  obtain ⟨r3, hr3, hp3⟩ := hrev 3 d2
  have hs3 : Orchestrator.reviewStep o 3 d2
      = .ok (ReviewerAgent.validate_pass_decision r3) := by
    unfold Orchestrator.reviewStep
    rw [hr3]
  have hrf3 : Orchestrator.refineStep o input d2
      (ReviewerAgent.validate_pass_decision r3) 3
      = .error (.unexpected
          ("1 validation error for RefinerInput: attempt_number=" ++
            toString 3 ++ " not in range 1..2")) := by
    unfold Orchestrator.refineStep RefinerInput.validate
    rw [if_neg (by omega)]
  have hloop : Orchestrator.reviewLoop o maxR input 1 d0 []
      = .failed
        [⟨1, d0, ReviewerAgent.validate_pass_decision r1, some d1, o.attemptTime 1⟩,
         ⟨2, d1, ReviewerAgent.validate_pass_decision r2, some d2, o.attemptTime 2⟩]
        (.unexpected ("1 validation error for RefinerInput: attempt_number=" ++
          toString 3 ++ " not in range 1..2")) := by
    rw [reviewLoop_step_refine o maxR input 1 d0 [] _ d1 (by omega) hs1 hp1 hrf1]
    rw [reviewLoop_step_refine o maxR input 2 d1 _ _ d2 (by omega) hs2 hp2 hrf2]
    rw [reviewLoop_step_refineError o maxR input 3 d2 _ _ _ (by omega) hs3 hp3 hrf3]
    rfl
  rw [run_loop_failed o maxR rid uid input st ft d0 _ _ hg hloop]
  exact ⟨_, rfl, rfl⟩

/-- Witness for C10 at ceiling 3 and the always-failing behaviour. -/
theorem C10_refiner_attempt_cap_witness :
    ∃ m,
      (Orchestrator.run failOracles 3 "run-w10" none sampleInput 0 1).artifact.final
          = some ⟨.rejected, none, none, some ("Unexpected error: " ++ m)⟩ ∧
      (Orchestrator.run failOracles 3 "run-w10" none sampleInput 0 1).artifact.attempts.length
          = 2 :=
  C10_refiner_attempt_cap failOracles 3 "run-w10" none sampleInput 0 1
    (by omega)
    ⟨sampleDraft, rfl⟩
    (fun n c => ⟨failReview, rfl, by rw [validate_failReview]; rfl⟩)
    (fun ri => ⟨sampleDraft, rfl⟩)

/-! ## C1: tagging invocations -/

/-- C1 (amended): the tagger is invoked — exactly once, on the final
draft — iff the review loop exits with a passing review; when the tagging
call succeeds the artifact is approved with that draft as non-null content
and non-null tags; when generation fails or the loop ends without a
passing review (rejected or errored), the tagging collaborator receives
zero invocations. (A failed tagging call still ends the run rejected, so a
rejected run can carry that one invocation — see the counterexample.) -/
theorem C1_tagging_invocation (o : Oracles) (maxR : Nat) (rid : String)
    (uid : Option String) (input : GeneratorInput) (st ft : Int) :
    (∀ e, o.generate input = .error e →
      (Orchestrator.run o maxR rid uid input st ft).taggerCalls = []) ∧
    (∀ d0, o.generate input = .ok d0 →
      (∀ atts e, Orchestrator.reviewLoop o maxR input 1 d0 [] = .failed atts e →
        (Orchestrator.run o maxR rid uid input st ft).taggerCalls = []) ∧
      (∀ atts fr, Orchestrator.reviewLoop o maxR input 1 d0 [] = .done atts none fr →
        (Orchestrator.run o maxR rid uid input st ft).taggerCalls = []) ∧
      (∀ atts c fr, Orchestrator.reviewLoop o maxR input 1 d0 [] = .done atts (some c) fr →
        (Orchestrator.run o maxR rid uid input st ft).taggerCalls = [c] ∧
        (∀ t, o.tag input c = .ok t →
          (Orchestrator.run o maxR rid uid input st ft).artifact.final
            = some ⟨.approved, some c, some t, none⟩) ∧
        (∀ e, o.tag input c = .error e →
          (Orchestrator.run o maxR rid uid input st ft).artifact.final
              = some (FinalResult.ofError e) ∧
          (FinalResult.ofError e).status = .rejected))) := by
  constructor
  · intro e hg
    rw [run_gen_error o maxR rid uid input st ft e hg]
  · intro d0 hg
    refine ⟨?_, ?_, ?_⟩
    · intro atts e hl
      rw [run_loop_failed o maxR rid uid input st ft d0 atts e hg hl]
    · intro atts fr hl
      rw [run_loop_rejected o maxR rid uid input st ft d0 atts fr hg hl]
    · intro atts c fr hl
      refine ⟨?_, fun t ht => ?_, fun e ht => ?_⟩
      · rcases ht : o.tag input c with e | t
        · rw [run_loop_tagError o maxR rid uid input st ft d0 atts c fr e hg hl ht]
        · rw [run_loop_approved o maxR rid uid input st ft d0 atts c fr t hg hl ht]
      · rw [run_loop_approved o maxR rid uid input st ft d0 atts c fr t hg hl ht]
      · exact ⟨by rw [run_loop_tagError o maxR rid uid input st ft d0 atts c fr e hg hl ht],
          rfl⟩

/-- Witness for C1: a run whose first review passes invokes the tagger
exactly once on the final draft and, tagging succeeding, is approved with
that content and those tags. -/
theorem C1_tagging_invocation_witness :
    (Orchestrator.run sampleOracles 2 "run-w1" none sampleInput 0 1).taggerCalls
        = [sampleDraft] ∧
    (Orchestrator.run sampleOracles 2 "run-w1" none sampleInput 0 1).artifact.final
        = some ⟨.approved, some sampleDraft, some sampleTags, none⟩ := by
  have hloop : Orchestrator.reviewLoop sampleOracles 2 sampleInput 1 sampleDraft []
      = .done [⟨1, sampleDraft, passReview, none, sampleOracles.attemptTime 1⟩]
          (some sampleDraft) (some passReview) := by
    rw [reviewLoop_step_pass sampleOracles 2 sampleInput 1 sampleDraft []
        passReview (by omega) (reviewStep_sampleOracles 1 sampleDraft) rfl]
    rfl
  obtain ⟨hcalls, hok, _⟩ :=
    ((C1_tagging_invocation sampleOracles 2 "run-w1" none sampleInput 0 1).2
      sampleDraft rfl).2.2 _ sampleDraft _ hloop
  exact ⟨hcalls, hok sampleTags rfl⟩

/-- A behaviour in which the first review passes but the tagging call
fails terminally. -/
def tagFailOracles : Oracles :=
  { sampleOracles with
    tag := fun _ _ =>
      .error (.agent ⟨"Failed after 2 attempts. Last error: invalid tags",
        "TaggerAgent", false⟩) }

/-- Counterexample to C1 as stated: when the review loop exits passing but
the tagging call fails terminally, the run ends rejected even though the
tagging collaborator received an invocation — so "the tagger is never
invoked when the run ends rejected" is false of the code. -/
theorem C1_tagging_invocation_counterexample :
    ∃ f, (Orchestrator.run tagFailOracles 2 "run-c1" none sampleInput 0 1).artifact.final
        = some f ∧
      f.status = .rejected ∧
      (Orchestrator.run tagFailOracles 2 "run-c1" none sampleInput 0 1).taggerCalls
        = [sampleDraft] := by
  have hs : Orchestrator.reviewStep tagFailOracles 1 sampleDraft = .ok passReview := by
    unfold Orchestrator.reviewStep tagFailOracles sampleOracles
    simp [validate_passReview]
  have hloop : Orchestrator.reviewLoop tagFailOracles 2 sampleInput 1 sampleDraft []
      = .done [⟨1, sampleDraft, passReview, none, tagFailOracles.attemptTime 1⟩]
          (some sampleDraft) (some passReview) := by
    rw [reviewLoop_step_pass tagFailOracles 2 sampleInput 1 sampleDraft []
        passReview (by omega) hs rfl]
    rfl
  rw [run_loop_tagError tagFailOracles 2 "run-c1" none sampleInput 0 1
      sampleDraft _ sampleDraft _
      (.agent ⟨"Failed after 2 attempts. Last error: invalid tags",
        "TaggerAgent", false⟩)
      rfl hloop rfl]
  exact ⟨_, rfl, rfl, rfl⟩

/-! ## C7: attempt-record invariants of the review loop -/

lemma reviewLoop_refined_inv (o : Oracles) (maxR : Nat) (input : GeneratorInput) :
    ∀ fuel n current acc,
      maxR + 2 - n ≤ fuel →
      (∀ rec ∈ acc, rec.refined.isSome ↔
        (rec.review.pass_decision = false ∧ rec.attempt ≤ maxR)) →
      ∀ rec ∈ (Orchestrator.reviewLoop o maxR input n current acc).attempts,
        rec.refined.isSome ↔
          (rec.review.pass_decision = false ∧ rec.attempt ≤ maxR) := by
  intro fuel
  induction fuel with
  | zero =>
    intro n current acc hle hacc
    rw [Orchestrator.reviewLoop, dif_neg (by omega)]
    exact hacc
  | succ f ih =>
    intro n current acc hle hacc
    by_cases hn : n ≤ maxR + 1
    · rcases hrs : Orchestrator.reviewStep o n current with e | review
      · rw [reviewLoop_step_reviewError o maxR input n current acc e hn hrs]
        exact hacc
      · rcases hp : review.pass_decision
        · by_cases hm2 : maxR < n
          · rw [reviewLoop_step_exhaust o maxR input n current acc review hn hm2 hrs hp]
            intro rec hrec
            rcases List.mem_append.mp hrec with h1 | h2
            · exact hacc rec h1
            · simp only [List.mem_singleton] at h2
              subst h2
              dsimp only
              constructor
              · intro hs
                exact absurd hs (by simp)
              · intro hand
                exact absurd hand.2 (by omega)
          · rcases hrf : Orchestrator.refineStep o input current review n with e | rc
            · rw [reviewLoop_step_refineError o maxR input n current acc review e
                (by omega) hrs hp hrf]
              exact hacc
            · rw [reviewLoop_step_refine o maxR input n current acc review rc
                (by omega) hrs hp hrf]
              apply ih (n + 1) rc _ (by omega)
              intro rec hrec
              rcases List.mem_append.mp hrec with h1 | h2
              · exact hacc rec h1
              · simp only [List.mem_singleton] at h2
                subst h2
                dsimp only
                constructor
                · intro _
                  exact ⟨hp, by omega⟩
                · intro _
                  rfl
        · rw [reviewLoop_step_pass o maxR input n current acc review hn hrs hp]
          intro rec hrec
          rcases List.mem_append.mp hrec with h1 | h2
          · exact hacc rec h1
          · simp only [List.mem_singleton] at h2
            subst h2
            simp [hp]
    · rw [Orchestrator.reviewLoop, dif_neg hn]
      exact hacc

lemma reviewLoop_chain (o : Oracles) (maxR : Nat) (input : GeneratorInput) :
    ∀ fuel n current acc,
      maxR + 2 - n ≤ fuel →
      List.Chain' (fun a b => a.refined = some b.draft) acc →
      (∀ last, acc.getLast? = some last → last.refined = some current) →
      List.Chain' (fun a b => a.refined = some b.draft)
        (Orchestrator.reviewLoop o maxR input n current acc).attempts := by
  intro fuel
  induction fuel with
  | zero =>
    intro n current acc hle hchain _hlast
    rw [Orchestrator.reviewLoop, dif_neg (by omega)]
    exact hchain
  | succ f ih =>
    intro n current acc hle hchain hlast
    have happend : ∀ rec : AttemptRecord, rec.draft = current →
        List.Chain' (fun a b => a.refined = some b.draft) (acc ++ [rec]) := by
      intro rec hdraft
      rw [List.chain'_append]
      refine ⟨hchain, List.chain'_singleton rec, fun x hx y hy => ?_⟩
      simp only [List.head?_cons, Option.mem_def, Option.some.injEq] at hy
      subst hy
      rw [hdraft]
      exact hlast x hx
    by_cases hn : n ≤ maxR + 1
    · rcases hrs : Orchestrator.reviewStep o n current with e | review
      · rw [reviewLoop_step_reviewError o maxR input n current acc e hn hrs]
        exact hchain
      · rcases hp : review.pass_decision
        · by_cases hm2 : maxR < n
          · rw [reviewLoop_step_exhaust o maxR input n current acc review hn hm2 hrs hp]
            exact happend _ rfl
          · rcases hrf : Orchestrator.refineStep o input current review n with e | rc
            · rw [reviewLoop_step_refineError o maxR input n current acc review e
                (by omega) hrs hp hrf]
              exact hchain
            · rw [reviewLoop_step_refine o maxR input n current acc review rc
                (by omega) hrs hp hrf]
              apply ih (n + 1) rc _ (by omega) (happend _ rfl)
              intro last hl
              rw [List.getLast?_concat] at hl
              cases hl
              rfl
        · rw [reviewLoop_step_pass o maxR input n current acc review hn hrs hp]
          exact happend _ rfl
    · rw [Orchestrator.reviewLoop, dif_neg hn]
      exact hchain

lemma run_attempts_shape (o : Oracles) (maxR : Nat) (rid : String)
    (uid : Option String) (input : GeneratorInput) (st ft : Int) :
    (Orchestrator.run o maxR rid uid input st ft).artifact.attempts = [] ∨
    ∃ d0, o.generate input = .ok d0 ∧
      (Orchestrator.run o maxR rid uid input st ft).artifact.attempts
        = (Orchestrator.reviewLoop o maxR input 1 d0 []).attempts := by
  rcases hg : o.generate input with e | d0
  · left
    rw [run_gen_error o maxR rid uid input st ft e hg]
  · right
    refine ⟨d0, rfl, ?_⟩
    rcases hl : Orchestrator.reviewLoop o maxR input 1 d0 [] with
      ⟨atts, fc, fr⟩ | ⟨atts, e⟩
    · rcases fc with _ | c
      · rw [run_loop_rejected o maxR rid uid input st ft d0 atts fr hg hl]
        rfl
      · rcases ht : o.tag input c with e | tags
        · rw [run_loop_tagError o maxR rid uid input st ft d0 atts c fr e hg hl ht]
          rfl
        · rw [run_loop_approved o maxR rid uid input st ft d0 atts c fr tags hg hl ht]
          rfl
    · rw [run_loop_failed o maxR rid uid input st ft d0 atts e hg hl]
      rfl

/-- C7: on every run, an attempt record carries `refined` iff its review
failed and refinement budget remained (`attempt ≤ maxR`); consecutive
records chain — each record's refined draft is the next record's current
draft; and when the first review passes, the attempts list is exactly one
record, numbered 1, with `refined` absent. -/
theorem C7_refined_presence (o : Oracles) (maxR : Nat) (rid : String)
    (uid : Option String) (input : GeneratorInput) (st ft : Int) :
    (∀ rec ∈ (Orchestrator.run o maxR rid uid input st ft).artifact.attempts,
      rec.refined.isSome ↔
        (rec.review.pass_decision = false ∧ rec.attempt ≤ maxR)) ∧
    List.Chain' (fun a b => a.refined = some b.draft)
      (Orchestrator.run o maxR rid uid input st ft).artifact.attempts ∧
    (∀ d0 r, o.generate input = .ok d0 →
      Orchestrator.reviewStep o 1 d0 = .ok r → r.pass_decision = true →
      (Orchestrator.run o maxR rid uid input st ft).artifact.attempts.map
          (fun rec => (rec.attempt, rec.refined))
        = [(1, none)]) := by
  refine ⟨?_, ?_, ?_⟩
  · rcases run_attempts_shape o maxR rid uid input st ft with hnil | ⟨d0, hg, heq⟩
    · rw [hnil]
      intro rec hrec
      exact absurd hrec (List.not_mem_nil rec)
    · rw [heq]
      exact reviewLoop_refined_inv o maxR input (maxR + 1) 1 d0 []
        (by omega) (by intro rec hrec; exact absurd hrec (List.not_mem_nil rec))
  · rcases run_attempts_shape o maxR rid uid input st ft with hnil | ⟨d0, hg, heq⟩
    · rw [hnil]
      exact List.chain'_nil
    · rw [heq]
      exact reviewLoop_chain o maxR input (maxR + 1) 1 d0 [] (by omega)
        List.chain'_nil (by intro last hl; simp at hl)
  · intro d0 r hg hs hp
    have hloop := reviewLoop_step_pass o maxR input 1 d0 [] r (by omega) hs hp
    rcases ht : o.tag input d0 with e | tags
    · rw [run_loop_tagError o maxR rid uid input st ft d0 _ d0 _ e hg hloop ht]
      rfl
    · rw [run_loop_approved o maxR rid uid input st ft d0 _ d0 _ tags hg hloop ht]
      rfl

/-- Witness for C7: a run whose first review passes has exactly one
attempt record, numbered 1, with `refined` absent. -/
theorem C7_refined_presence_witness :
    (Orchestrator.run sampleOracles 2 "run-w7" none sampleInput 0 1).artifact.attempts.map
        (fun rec => (rec.attempt, rec.refined))
      = [(1, none)] :=
  (C7_refined_presence sampleOracles 2 "run-w7" none sampleInput 0 1).2.2
    sampleDraft passReview rfl (reviewStep_sampleOracles 1 sampleDraft) rfl

end AIAssessment
